import Mathlib

/-!
Verification of the EasyVulkan resource-tracking and builder layer.

The definitions below are a shallow embedding of the C++ sources:
native handles are `Nat`, flag words are `Nat` with the numeric values of
the Vulkan headers where a property depends on them, fallible functions
return `Except String`, and functions whose externally visible behaviour
is a sequence of native API calls additionally return an explicit trace
of those calls as a list of events.
-/

namespace EV

/-! ## Vulkan enumerations and flag constants -/

/-- Image layouts appearing in the layout-transition case tables of
ResourceUtils.cpp. -/
inductive VkImageLayout where
  | undefined
  | general
  | colorAttachmentOptimal
  | shaderReadOnlyOptimal
  | transferSrcOptimal
  | transferDstOptimal
  | presentSrcKhr
  | attachmentOptimalKhr
  deriving DecidableEq, Fintype

/-- Numeric value of each layout in the Vulkan headers; used by the
error message of transitionImageLayoutWithInfo, which calls
std::to_string on the enum value. -/
def VkImageLayout.toNat : VkImageLayout → Nat
  | .undefined => 0
  | .general => 1
  | .colorAttachmentOptimal => 2
  | .shaderReadOnlyOptimal => 5
  | .transferSrcOptimal => 6
  | .transferDstOptimal => 7
  | .presentSrcKhr => 1000001002
  | .attachmentOptimalKhr => 1000314001

def VK_ACCESS_SHADER_READ_BIT : Nat := 32
def VK_ACCESS_SHADER_WRITE_BIT : Nat := 64
def VK_ACCESS_COLOR_ATTACHMENT_WRITE_BIT : Nat := 256
def VK_ACCESS_TRANSFER_READ_BIT : Nat := 2048
def VK_ACCESS_TRANSFER_WRITE_BIT : Nat := 4096

def VK_PIPELINE_STAGE_TOP_OF_PIPE_BIT : Nat := 1
def VK_PIPELINE_STAGE_FRAGMENT_SHADER_BIT : Nat := 128
def VK_PIPELINE_STAGE_COLOR_ATTACHMENT_OUTPUT_BIT : Nat := 1024
def VK_PIPELINE_STAGE_COMPUTE_SHADER_BIT : Nat := 2048
def VK_PIPELINE_STAGE_TRANSFER_BIT : Nat := 4096

def VK_QUEUE_GRAPHICS_BIT : Nat := 1
def VK_QUEUE_COMPUTE_BIT : Nat := 2
def VK_QUEUE_TRANSFER_BIT : Nat := 4

/-- VMA_ALLOCATION_CREATE_MAPPED_BIT of the VMA headers. -/
def VMA_ALLOCATION_CREATE_MAPPED_BIT : Nat := 4

/-- Buffer sharing mode (VkSharingMode). -/
inductive VkSharingMode where
  | exclusive
  | concurrent
  deriving DecidableEq

/-- VMA memory-usage hints used by BufferBuilder. -/
inductive VmaMemoryUsage where
  | unknown
  | gpuOnly
  | cpuOnly
  | cpuToGpu
  | gpuToCpu
  | auto
  deriving DecidableEq

/-- Object-type tags used by ResourceManager dispatch (VkObjectType).
otherType stands for any VkObjectType value outside the handled set. -/
inductive VkObjectType where
  | buffer
  | image
  | renderPass
  | framebuffer
  | sampler
  | shaderModule
  | descriptorSetLayout
  | pipeline
  | commandBuffer
  | descriptorSet
  | otherType
  deriving DecidableEq, Fintype

/-! ## Resource record structs (DataStructures.hpp / ResourceManager.hpp) -/

/-- Buffer record: handle + allocation + size + usage. -/
structure BufferInfo where
  buffer : Nat
  allocation : Nat
  size : Nat
  usage : Nat
  deriving DecidableEq

/-- Image record: handle + view + allocation + dimensions + tracked layout. -/
structure ImageInfo where
  image : Nat
  imageView : Nat
  allocation : Nat
  width : Nat
  height : Nat
  layout : VkImageLayout
  deriving DecidableEq

/-- Pipeline record: pipeline handle + layout handle. -/
structure PipelineInfo where
  pipeline : Nat
  pipelineLayout : Nat
  deriving DecidableEq

/-- Command-buffer record: command buffer handle + owning pool. -/
structure CommandBufferInfo where
  commandBuffer : Nat
  commandPool : Nat
  deriving DecidableEq

/-- Descriptor-set record: set handle + owning pool. -/
structure DescriptorSetInfo where
  descriptorSet : Nat
  descriptorPool : Nat
  deriving DecidableEq

/-! ## Name-keyed maps (std::unordered_map\<std::string, V\>) -/

/-- A name-keyed map, modelled as an association list; reachable states
have pairwise-distinct keys, matching std::unordered_map. -/
abbrev RMap (α : Type) : Type := List (String × α)

/-- The empty map. -/
def RMap.empty {α : Type} : RMap α := []

/-- Lookup (map.find(name)). -/
def mapLookup {α : Type} : RMap α → String → Option α
  | [], _ => none
  | (k', v) :: rest, k => if k' = k then some v else mapLookup rest k

/-- Keyed assignment (map[name] = value): replaces the value stored under
an existing key, inserts otherwise. -/
def mapInsert {α : Type} : RMap α → String → α → RMap α
  | [], k, v => [(k, v)]
  | (k', v') :: rest, k, v =>
      if k' = k then (k, v) :: rest else (k', v') :: mapInsert rest k v

/-- Erasure (map.erase(name)). -/
def mapErase {α : Type} : RMap α → String → RMap α
  | [], _ => []
  | (k', v) :: rest, k =>
      if k' = k then mapErase rest k else (k', v) :: mapErase rest k

/-- Number of entries stored under a key. -/
def countKey {α : Type} : RMap α → String → Nat
  | [], _ => 0
  | (k', _) :: rest, k => (if k' = k then 1 else 0) + countKey rest k

/-- Well-formedness of a map state: keys pairwise distinct, the invariant
of std::unordered_map. -/
def NodupKeys {α : Type} (m : RMap α) : Prop := (m.map Prod.fst).Nodup

/-! ## ResourceManager state and operations (ResourceManager.cpp) -/

/-- The name-keyed maps owned by ResourceManager. -/
structure ResourceMaps where
  buffers : RMap BufferInfo := []
  images : RMap ImageInfo := []
  descriptorSetLayouts : RMap Nat := []
  descriptorSetInfos : RMap DescriptorSetInfo := []
  renderPasses : RMap Nat := []
  framebuffers : RMap Nat := []
  samplers : RMap Nat := []
  shaderModules : RMap Nat := []
  commandBuffers : RMap CommandBufferInfo := []
  pipelines : RMap PipelineInfo := []
  deriving DecidableEq

/-- Native calls made by ResourceManager operations. -/
inductive RMOp where
  | vmaDestroyBuffer (buffer allocation : Nat)
  | destroyRenderPass (h : Nat)
  | destroyFramebuffer (h : Nat)
  | destroySampler (h : Nat)
  | destroyShaderModule (h : Nat)
  | destroyDescriptorSetLayout (h : Nat)
  | destroyPipeline (h : Nat)
  | destroyPipelineLayout (h : Nat)
  | freeCommandBuffer (pool cb : Nat)
  | destroyImageView (h : Nat)
  | vmaDestroyImage (image allocation : Nat)
  | freeDescriptorSet (pool ds : Nat)
  | destroyDescriptorPool (h : Nat)
  | setDebugObjectName (t : VkObjectType) (h : Nat) (name : String)
  deriving DecidableEq

/-- Whether an operation destroys or frees a native object. -/
def RMOp.isDestroy : RMOp → Bool
  | .setDebugObjectName _ _ _ => false
  | _ => true

/-- registerResource(name, handle, type): single-handle overload
(lines 70-100). -/
def registerResource (m : ResourceMaps) (name : String) (handle : Nat)
    (t : VkObjectType) : ResourceMaps × List RMOp × Except String Unit :=
  if name = "" then (m, [], .ok ()) else
  match t with
  | .renderPass =>
      ({ m with renderPasses := mapInsert m.renderPasses name handle },
       [.setDebugObjectName t handle name], .ok ())
  | .framebuffer =>
      ({ m with framebuffers := mapInsert m.framebuffers name handle },
       [.setDebugObjectName t handle name], .ok ())
  | .sampler =>
      ({ m with samplers := mapInsert m.samplers name handle },
       [.setDebugObjectName t handle name], .ok ())
  | .shaderModule =>
      ({ m with shaderModules := mapInsert m.shaderModules name handle },
       [.setDebugObjectName t handle name], .ok ())
  | .descriptorSetLayout =>
      ({ m with descriptorSetLayouts := mapInsert m.descriptorSetLayouts name handle },
       [.setDebugObjectName t handle name], .ok ())
  | _ =>
      (m, [], .error "Unsupported resource type for tracking(For RenderPass, Framebuffer, Sampler, ShaderModule)")

/-- registerResource(name, handle, allocation, size, usage, type): buffer
overload (lines 102-125). -/
def registerResourceBuffer (m : ResourceMaps) (name : String) (handle : Nat)
    (allocation size usage : Nat) (t : VkObjectType) :
    ResourceMaps × List RMOp × Except String Unit :=
  if name = "" then (m, [], .ok ()) else
  if t = .buffer then
    ({ m with buffers := mapInsert m.buffers name (BufferInfo.mk handle allocation size usage) },
     [.setDebugObjectName t handle name], .ok ())
  else
    (m, [], .error "Unsupported resource type for VMA tracking(For Buffer)")

/-- registerResource(name, handle, imageView, allocation, width, height,
layout, type): image overload (lines 127-152). -/
def registerResourceImage (m : ResourceMaps) (name : String) (handle : Nat)
    (imageView allocation width height : Nat) (layout : VkImageLayout)
    (t : VkObjectType) : ResourceMaps × List RMOp × Except String Unit :=
  if name = "" then (m, [], .ok ()) else
  match t with
  | .image =>
      ({ m with images := mapInsert m.images name
                    (ImageInfo.mk handle imageView allocation width height layout) },
       [.setDebugObjectName t handle name], .ok ())
  | _ =>
      (m, [], .error "Unsupported resource type for VMA tracking(For Image)")

/-- registerResource(name, primaryHandle, secondaryHandle, type): paired
overload for pipelines, command buffers and descriptor sets
(lines 156-189). -/
def registerResourcePair (m : ResourceMaps) (name : String)
    (primaryHandle secondaryHandle : Nat) (t : VkObjectType) :
    ResourceMaps × List RMOp × Except String Unit :=
  if name = "" then (m, [], .ok ()) else
  match t with
  | .pipeline =>
      ({ m with pipelines := mapInsert m.pipelines name
                    (PipelineInfo.mk primaryHandle secondaryHandle) },
       [.setDebugObjectName t primaryHandle name], .ok ())
  | .commandBuffer =>
      ({ m with commandBuffers := mapInsert m.commandBuffers name
                    (CommandBufferInfo.mk primaryHandle secondaryHandle) },
       [.setDebugObjectName t primaryHandle name], .ok ())
  | .descriptorSet =>
      ({ m with descriptorSetInfos := mapInsert m.descriptorSetInfos name
                    (DescriptorSetInfo.mk primaryHandle secondaryHandle) },
       [.setDebugObjectName t primaryHandle name], .ok ())
  | _ =>
      (m, [], .error "Unsupported resource type for tracking(For Pipeline, DescriptorSet, CommandBuffer)")

/-- clearResource(name, type) (lines 192-284): looks up the record in the
map matching the type tag, destroys the native object(s), erases the
record and reports whether it was found. -/
def clearResource (m : ResourceMaps) (name : String) (t : VkObjectType) :
    Bool × ResourceMaps × List RMOp :=
  if name = "" then (false, m, []) else
  match t with
  | .buffer =>
      match mapLookup m.buffers name with
      | some bi =>
          (true, { m with buffers := mapErase m.buffers name },
           [.vmaDestroyBuffer bi.buffer bi.allocation])
      | none => (false, m, [])
  | .renderPass =>
      match mapLookup m.renderPasses name with
      | some h =>
          (true, { m with renderPasses := mapErase m.renderPasses name },
           [.destroyRenderPass h])
      | none => (false, m, [])
  | .framebuffer =>
      match mapLookup m.framebuffers name with
      | some h =>
          (true, { m with framebuffers := mapErase m.framebuffers name },
           [.destroyFramebuffer h])
      | none => (false, m, [])
  | .sampler =>
      match mapLookup m.samplers name with
      | some h =>
          (true, { m with samplers := mapErase m.samplers name },
           [.destroySampler h])
      | none => (false, m, [])
  | .shaderModule =>
      match mapLookup m.shaderModules name with
      | some h =>
          (true, { m with shaderModules := mapErase m.shaderModules name },
           [.destroyShaderModule h])
      | none => (false, m, [])
  | .descriptorSetLayout =>
      match mapLookup m.descriptorSetLayouts name with
      | some h =>
          (true, { m with descriptorSetLayouts := mapErase m.descriptorSetLayouts name },
           [.destroyDescriptorSetLayout h])
      | none => (false, m, [])
  | .pipeline =>
      match mapLookup m.pipelines name with
      | some pi =>
          (true, { m with pipelines := mapErase m.pipelines name },
           [.destroyPipeline pi.pipeline, .destroyPipelineLayout pi.pipelineLayout])
      | none => (false, m, [])
  | .commandBuffer =>
      match mapLookup m.commandBuffers name with
      | some ci =>
          (true, { m with commandBuffers := mapErase m.commandBuffers name },
           [.freeCommandBuffer ci.commandPool ci.commandBuffer])
      | none => (false, m, [])
  | .image =>
      match mapLookup m.images name with
      | some ii =>
          (true, { m with images := mapErase m.images name },
           [.destroyImageView ii.imageView, .vmaDestroyImage ii.image ii.allocation])
      | none => (false, m, [])
  | .descriptorSet =>
      match mapLookup m.descriptorSetInfos name with
      | some di =>
          (true, { m with descriptorSetInfos := mapErase m.descriptorSetInfos name },
           [.freeDescriptorSet di.descriptorPool di.descriptorSet,
            .destroyDescriptorPool di.descriptorPool])
      | none => (false, m, [])
  | .otherType => (false, m, [])

/-- cleanup() (lines 286-346): destroys the tracked resources map by map
in the hardcoded source order and clears those maps. The descriptor-set
layout map is not visited by cleanup in the source. -/
def cleanup (m : ResourceMaps) : List RMOp × ResourceMaps :=
  (((m.framebuffers.map fun p => RMOp.destroyFramebuffer p.2) ++
    ((m.renderPasses.map fun p => RMOp.destroyRenderPass p.2) ++
    (((m.pipelines.map fun p =>
        [RMOp.destroyPipeline p.2.pipeline,
         RMOp.destroyPipelineLayout p.2.pipelineLayout]).flatten) ++
    ((m.shaderModules.map fun p => RMOp.destroyShaderModule p.2) ++
    ((m.samplers.map fun p => RMOp.destroySampler p.2) ++
    (((m.images.map fun p =>
        [RMOp.destroyImageView p.2.imageView,
         RMOp.vmaDestroyImage p.2.image p.2.allocation]).flatten) ++
    ((m.buffers.map fun p => RMOp.vmaDestroyBuffer p.2.buffer p.2.allocation) ++
    (((m.commandBuffers.map fun p =>
        if p.2.commandPool ≠ 0 then
          [RMOp.freeCommandBuffer p.2.commandPool p.2.commandBuffer]
        else []).flatten) ++
    ((m.descriptorSetInfos.map fun p =>
        RMOp.freeDescriptorSet p.2.descriptorPool p.2.descriptorSet) ++
    (m.descriptorSetInfos.map fun p =>
        RMOp.destroyDescriptorPool p.2.descriptorPool)))))))))),
   { buffers := [], images := [],
     descriptorSetLayouts := m.descriptorSetLayouts,
     descriptorSetInfos := [], renderPasses := [], framebuffers := [],
     samplers := [], shaderModules := [], commandBuffers := [],
     pipelines := [] })

/-- Rank of a destroy operation in the fixed teardown order of cleanup. -/
def RMOp.kindRank : RMOp → Nat
  | .destroyFramebuffer _ => 0
  | .destroyRenderPass _ => 1
  | .destroyPipeline _ => 2
  | .destroyPipelineLayout _ => 2
  | .destroyShaderModule _ => 3
  | .destroySampler _ => 4
  | .destroyImageView _ => 5
  | .vmaDestroyImage _ _ => 5
  | .vmaDestroyBuffer _ _ => 6
  | .freeCommandBuffer _ _ => 7
  | .freeDescriptorSet _ _ => 8
  | .destroyDescriptorPool _ => 9
  | .destroyDescriptorSetLayout _ => 10
  | .setDebugObjectName _ _ _ => 10

/-- A registration request: which overload of registerResource is called
and with which payload. -/
inductive RegRequest where
  | handle (h : Nat) (t : VkObjectType)
  | buffer (h allocation size usage : Nat)
  | image (h view allocation width height : Nat) (layout : VkImageLayout)
  | pair (primary secondary : Nat) (t : VkObjectType)
  deriving DecidableEq

/-- The object-type tag under which the request registers. -/
def RegRequest.objType : RegRequest → VkObjectType
  | .handle _ t => t
  | .buffer _ _ _ _ => .buffer
  | .image _ _ _ _ _ _ => .image
  | .pair _ _ t => t

/-- Whether the request names a type its overload supports. -/
def RegRequest.supported : RegRequest → Bool
  | .handle _ t =>
      t = VkObjectType.renderPass ∨ t = VkObjectType.framebuffer ∨
      t = VkObjectType.sampler ∨ t = VkObjectType.shaderModule ∨
      t = VkObjectType.descriptorSetLayout
  | .buffer _ _ _ _ => true
  | .image _ _ _ _ _ _ => true
  | .pair _ _ t =>
      t = VkObjectType.pipeline ∨ t = VkObjectType.commandBuffer ∨
      t = VkObjectType.descriptorSet

/-- Dispatch a registration request to the overload it denotes. -/
def applyRegister (m : ResourceMaps) (name : String) :
    RegRequest → ResourceMaps × List RMOp × Except String Unit
  | .handle h t => registerResource m name h t
  | .buffer h a s u => registerResourceBuffer m name h a s u .buffer
  | .image h v a w hh l => registerResourceImage m name h v a w hh l .image
  | .pair p s t => registerResourcePair m name p s t

/-- Whether the map selected by a type tag holds a record under a name. -/
def containsFor (m : ResourceMaps) (t : VkObjectType) (name : String) : Bool :=
  match t with
  | .buffer => (mapLookup m.buffers name).isSome
  | .image => (mapLookup m.images name).isSome
  | .renderPass => (mapLookup m.renderPasses name).isSome
  | .framebuffer => (mapLookup m.framebuffers name).isSome
  | .sampler => (mapLookup m.samplers name).isSome
  | .shaderModule => (mapLookup m.shaderModules name).isSome
  | .descriptorSetLayout => (mapLookup m.descriptorSetLayouts name).isSome
  | .pipeline => (mapLookup m.pipelines name).isSome
  | .commandBuffer => (mapLookup m.commandBuffers name).isSome
  | .descriptorSet => (mapLookup m.descriptorSetInfos name).isSome
  | .otherType => false

/-- Number of records the map selected by a type tag holds under a name. -/
def countFor (m : ResourceMaps) (t : VkObjectType) (name : String) : Nat :=
  match t with
  | .buffer => countKey m.buffers name
  | .image => countKey m.images name
  | .renderPass => countKey m.renderPasses name
  | .framebuffer => countKey m.framebuffers name
  | .sampler => countKey m.samplers name
  | .shaderModule => countKey m.shaderModules name
  | .descriptorSetLayout => countKey m.descriptorSetLayouts name
  | .pipeline => countKey m.pipelines name
  | .commandBuffer => countKey m.commandBuffers name
  | .descriptorSet => countKey m.descriptorSetInfos name
  | .otherType => 0

/-- Well-formedness of the map selected by a type tag. -/
def NodupKeysFor (m : ResourceMaps) (t : VkObjectType) : Prop :=
  match t with
  | .buffer => NodupKeys m.buffers
  | .image => NodupKeys m.images
  | .renderPass => NodupKeys m.renderPasses
  | .framebuffer => NodupKeys m.framebuffers
  | .sampler => NodupKeys m.samplers
  | .shaderModule => NodupKeys m.shaderModules
  | .descriptorSetLayout => NodupKeys m.descriptorSetLayouts
  | .pipeline => NodupKeys m.pipelines
  | .commandBuffer => NodupKeys m.commandBuffers
  | .descriptorSet => NodupKeys m.descriptorSetInfos
  | .otherType => True

/-- Whether the maps hold exactly the record a request describes under a
name. -/
def recordedAs (m : ResourceMaps) (name : String) : RegRequest → Bool
  | .handle h t =>
      match t with
      | .renderPass => mapLookup m.renderPasses name = some h
      | .framebuffer => mapLookup m.framebuffers name = some h
      | .sampler => mapLookup m.samplers name = some h
      | .shaderModule => mapLookup m.shaderModules name = some h
      | .descriptorSetLayout => mapLookup m.descriptorSetLayouts name = some h
      | _ => false
  | .buffer h a s u => mapLookup m.buffers name = some ⟨h, a, s, u⟩
  | .image h v a w hh l => mapLookup m.images name = some ⟨h, v, a, w, hh, l⟩
  | .pair p s t =>
      match t with
      | .pipeline => mapLookup m.pipelines name = some ⟨p, s⟩
      | .commandBuffer => mapLookup m.commandBuffers name = some ⟨p, s⟩
      | .descriptorSet => mapLookup m.descriptorSetInfos name = some ⟨p, s⟩
      | _ => false

/-! ## BufferBuilder (BufferBuilder.cpp) -/

/-- The configuration accumulated by BufferBuilder, with the default
member initializers of BufferBuilder.hpp. -/
structure BufferBuilder where
  size : Nat := 0
  usage : Nat := 0
  memoryUsage : VmaMemoryUsage := .auto
  memoryFlags : Nat := 0
  memoryProperties : Nat := 0
  sharingMode : VkSharingMode := .exclusive
  queueFamilyIndices : List Nat := []
  deriving DecidableEq

/-- Native calls a BufferBuilder operation can make. Data pointers are
modelled as the byte lists they point to. -/
inductive BufOp where
  | vmaCreateBuffer (size usage : Nat) (memUsage : VmaMemoryUsage)
      (memFlags : Nat) (sharing : VkSharingMode)
  | registerBuffer (name : String)
  | memcpyToMapped (bytes : List Nat)
  | createStagingBuffer (size : Nat)
  | cmdCopyBuffer (size : Nat)
  | destroyStagingBuffer
  | submitAndWaitFence
  deriving DecidableEq

/-- Whether an operation belongs to a staged GPU upload: creating,
copying from, destroying a staging buffer, or blocking on a submitted
copy. -/
def BufOp.isStagedUploadOp : BufOp → Bool
  | .createStagingBuffer _ => true
  | .cmdCopyBuffer _ => true
  | .destroyStagingBuffer => true
  | .submitAndWaitFence => true
  | _ => false

namespace BufferBuilder

/-- validateParameters (BufferBuilder.cpp lines 52-71). -/
def validateParameters (b : BufferBuilder) : Except String Unit :=
  if b.size = 0 then
    .error "Buffer size must be greater than 0"
  else if b.usage = 0 then
    .error "Buffer usage flags must be specified"
  else if b.sharingMode = VkSharingMode.concurrent ∧ b.queueFamilyIndices = [] then
    .error "Queue family indices must be specified for concurrent sharing mode"
  else
    .ok ()

/-- build (BufferBuilder.cpp lines 116-129): validates, performs the
single vmaCreateBuffer call and registers the buffer when a name is
given. The trace holds the calls performed before a throw. -/
def build (b : BufferBuilder) (name : String) : List BufOp × Except String Unit :=
  match validateParameters b with
  | .error e => ([], .error e)
  | .ok () =>
      ([BufOp.vmaCreateBuffer b.size b.usage b.memoryUsage b.memoryFlags
          b.sharingMode] ++
       (if name = "" then [] else [BufOp.registerBuffer name]),
       .ok ())

/-- buildAndInitialize (BufferBuilder.cpp lines 131-157): rejects a null
data pointer or zero size, forces the memory usage to CPU_TO_GPU and
ors in the persistently-mapped allocation flag, builds the buffer, and
uploads by a direct memcpy of dataSize bytes into the mapped allocation
(uploadData, lines 108-113). On success the second component is the
content of the mapped buffer memory. -/
def buildAndInitialize (b : BufferBuilder) (data : Option (List Nat))
    (dataSize : Nat) (name : String) :
    List BufOp × Except String (List Nat) :=
  match data with
  | none => ([], .error "Invalid data or data size")
  | some d =>
      if dataSize = 0 then ([], .error "Invalid data or data size")
      else
        let b1 : BufferBuilder :=
          { b with memoryUsage := VmaMemoryUsage.cpuToGpu,
                   memoryFlags := b.memoryFlags ||| VMA_ALLOCATION_CREATE_MAPPED_BIT }
        match build b1 name with
        | (ops, .error e) => (ops, .error e)
        | (ops, .ok ()) =>
            (ops ++ [BufOp.memcpyToMapped (d.take dataSize)],
             .ok (d.take dataSize))

end BufferBuilder

/-! ## Image layout transitions (ResourceUtils.cpp) -/

/-- The access-mask and stage-mask combination a transition case
produces. -/
structure BarrierMasks where
  srcAccessMask : Nat
  dstAccessMask : Nat
  sourceStage : Nat
  destinationStage : Nat
  deriving DecidableEq

/-- transitionImageLayout (ResourceUtils.cpp lines 316-413): the
12-case table choosing access masks and pipeline stages, throwing on
any other pair. -/
def transitionImageLayout (oldLayout newLayout : VkImageLayout) :
    Except String BarrierMasks :=
  if oldLayout = .undefined ∧ newLayout = .transferDstOptimal then
    .ok ⟨0, VK_ACCESS_TRANSFER_WRITE_BIT,
         VK_PIPELINE_STAGE_TOP_OF_PIPE_BIT, VK_PIPELINE_STAGE_TRANSFER_BIT⟩
  else if oldLayout = .transferDstOptimal ∧ newLayout = .shaderReadOnlyOptimal then
    .ok ⟨VK_ACCESS_TRANSFER_WRITE_BIT, VK_ACCESS_SHADER_READ_BIT,
         VK_PIPELINE_STAGE_TRANSFER_BIT, VK_PIPELINE_STAGE_FRAGMENT_SHADER_BIT⟩
  else if oldLayout = .undefined ∧ newLayout = .general then
    .ok ⟨0, VK_ACCESS_SHADER_READ_BIT ||| VK_ACCESS_SHADER_WRITE_BIT,
         VK_PIPELINE_STAGE_TOP_OF_PIPE_BIT, VK_PIPELINE_STAGE_COMPUTE_SHADER_BIT⟩
  else if oldLayout = .general ∧ newLayout = .shaderReadOnlyOptimal then
    .ok ⟨VK_ACCESS_SHADER_WRITE_BIT, VK_ACCESS_SHADER_READ_BIT,
         VK_PIPELINE_STAGE_COMPUTE_SHADER_BIT, VK_PIPELINE_STAGE_FRAGMENT_SHADER_BIT⟩
  else if oldLayout = .shaderReadOnlyOptimal ∧ newLayout = .general then
    .ok ⟨VK_ACCESS_SHADER_READ_BIT,
         VK_ACCESS_SHADER_READ_BIT ||| VK_ACCESS_SHADER_WRITE_BIT,
         VK_PIPELINE_STAGE_FRAGMENT_SHADER_BIT, VK_PIPELINE_STAGE_COMPUTE_SHADER_BIT⟩
  else if oldLayout = .undefined ∧ newLayout = .colorAttachmentOptimal then
    .ok ⟨0, VK_ACCESS_COLOR_ATTACHMENT_WRITE_BIT,
         VK_PIPELINE_STAGE_TOP_OF_PIPE_BIT, VK_PIPELINE_STAGE_COLOR_ATTACHMENT_OUTPUT_BIT⟩
  else if oldLayout = .attachmentOptimalKhr ∧ newLayout = .shaderReadOnlyOptimal then
    .ok ⟨VK_ACCESS_COLOR_ATTACHMENT_WRITE_BIT, VK_ACCESS_SHADER_READ_BIT,
         VK_PIPELINE_STAGE_COLOR_ATTACHMENT_OUTPUT_BIT, VK_PIPELINE_STAGE_FRAGMENT_SHADER_BIT⟩
  else if oldLayout = .undefined ∧ newLayout = .shaderReadOnlyOptimal then
    .ok ⟨0, VK_ACCESS_SHADER_READ_BIT,
         VK_PIPELINE_STAGE_TOP_OF_PIPE_BIT, VK_PIPELINE_STAGE_FRAGMENT_SHADER_BIT⟩
  else if oldLayout = .colorAttachmentOptimal ∧ newLayout = .shaderReadOnlyOptimal then
    .ok ⟨0, VK_ACCESS_SHADER_READ_BIT,
         VK_PIPELINE_STAGE_TOP_OF_PIPE_BIT, VK_PIPELINE_STAGE_FRAGMENT_SHADER_BIT⟩
  else if oldLayout = .presentSrcKhr ∧ newLayout = .transferSrcOptimal then
    .ok ⟨VK_ACCESS_COLOR_ATTACHMENT_WRITE_BIT, VK_ACCESS_TRANSFER_READ_BIT,
         VK_PIPELINE_STAGE_COLOR_ATTACHMENT_OUTPUT_BIT, VK_PIPELINE_STAGE_TRANSFER_BIT⟩
  else if oldLayout = .transferSrcOptimal ∧ newLayout = .presentSrcKhr then
    .ok ⟨VK_ACCESS_TRANSFER_READ_BIT, VK_ACCESS_COLOR_ATTACHMENT_WRITE_BIT,
         VK_PIPELINE_STAGE_TRANSFER_BIT, VK_PIPELINE_STAGE_COLOR_ATTACHMENT_OUTPUT_BIT⟩
  else if oldLayout = .transferDstOptimal ∧ newLayout = .transferSrcOptimal then
    .ok ⟨VK_ACCESS_TRANSFER_WRITE_BIT, VK_ACCESS_TRANSFER_READ_BIT,
         VK_PIPELINE_STAGE_TRANSFER_BIT, VK_PIPELINE_STAGE_TRANSFER_BIT⟩
  else
    .error "unsupported layout transition!"

/-- transitionImageLayoutWithoutCommandBuffer (ResourceUtils.cpp lines
243-313): the 6-case table of the single-time-command variant. -/
def transitionImageLayoutWithoutCommandBuffer (oldLayout newLayout : VkImageLayout) :
    Except String BarrierMasks :=
  if oldLayout = .undefined ∧ newLayout = .transferDstOptimal then
    .ok ⟨0, VK_ACCESS_TRANSFER_WRITE_BIT,
         VK_PIPELINE_STAGE_TOP_OF_PIPE_BIT, VK_PIPELINE_STAGE_TRANSFER_BIT⟩
  else if oldLayout = .transferDstOptimal ∧ newLayout = .shaderReadOnlyOptimal then
    .ok ⟨VK_ACCESS_TRANSFER_WRITE_BIT, VK_ACCESS_SHADER_READ_BIT,
         VK_PIPELINE_STAGE_TRANSFER_BIT, VK_PIPELINE_STAGE_FRAGMENT_SHADER_BIT⟩
  else if oldLayout = .undefined ∧ newLayout = .general then
    .ok ⟨0, VK_ACCESS_SHADER_READ_BIT ||| VK_ACCESS_SHADER_WRITE_BIT,
         VK_PIPELINE_STAGE_TOP_OF_PIPE_BIT, VK_PIPELINE_STAGE_COMPUTE_SHADER_BIT⟩
  else if oldLayout = .general ∧ newLayout = .shaderReadOnlyOptimal then
    .ok ⟨VK_ACCESS_SHADER_WRITE_BIT, VK_ACCESS_SHADER_READ_BIT,
         VK_PIPELINE_STAGE_COMPUTE_SHADER_BIT, VK_PIPELINE_STAGE_FRAGMENT_SHADER_BIT⟩
  else if oldLayout = .shaderReadOnlyOptimal ∧ newLayout = .general then
    .ok ⟨VK_ACCESS_SHADER_READ_BIT,
         VK_ACCESS_SHADER_READ_BIT ||| VK_ACCESS_SHADER_WRITE_BIT,
         VK_PIPELINE_STAGE_FRAGMENT_SHADER_BIT, VK_PIPELINE_STAGE_COMPUTE_SHADER_BIT⟩
  else if oldLayout = .undefined ∧ newLayout = .colorAttachmentOptimal then
    .ok ⟨0, VK_ACCESS_COLOR_ATTACHMENT_WRITE_BIT,
         VK_PIPELINE_STAGE_TOP_OF_PIPE_BIT, VK_PIPELINE_STAGE_COLOR_ATTACHMENT_OUTPUT_BIT⟩
  else
    .error "unsupported layout transition!"

/-- The 12 (oldLayout, newLayout) cases of transitionImageLayout with
the masks each case assigns, in source order. -/
def transitionTable : List ((VkImageLayout × VkImageLayout) × BarrierMasks) :=
  [((.undefined, .transferDstOptimal),
     ⟨0, VK_ACCESS_TRANSFER_WRITE_BIT,
      VK_PIPELINE_STAGE_TOP_OF_PIPE_BIT, VK_PIPELINE_STAGE_TRANSFER_BIT⟩),
   ((.transferDstOptimal, .shaderReadOnlyOptimal),
     ⟨VK_ACCESS_TRANSFER_WRITE_BIT, VK_ACCESS_SHADER_READ_BIT,
      VK_PIPELINE_STAGE_TRANSFER_BIT, VK_PIPELINE_STAGE_FRAGMENT_SHADER_BIT⟩),
   ((.undefined, .general),
     ⟨0, VK_ACCESS_SHADER_READ_BIT ||| VK_ACCESS_SHADER_WRITE_BIT,
      VK_PIPELINE_STAGE_TOP_OF_PIPE_BIT, VK_PIPELINE_STAGE_COMPUTE_SHADER_BIT⟩),
   ((.general, .shaderReadOnlyOptimal),
     ⟨VK_ACCESS_SHADER_WRITE_BIT, VK_ACCESS_SHADER_READ_BIT,
      VK_PIPELINE_STAGE_COMPUTE_SHADER_BIT, VK_PIPELINE_STAGE_FRAGMENT_SHADER_BIT⟩),
   ((.shaderReadOnlyOptimal, .general),
     ⟨VK_ACCESS_SHADER_READ_BIT,
      VK_ACCESS_SHADER_READ_BIT ||| VK_ACCESS_SHADER_WRITE_BIT,
      VK_PIPELINE_STAGE_FRAGMENT_SHADER_BIT, VK_PIPELINE_STAGE_COMPUTE_SHADER_BIT⟩),
   ((.undefined, .colorAttachmentOptimal),
     ⟨0, VK_ACCESS_COLOR_ATTACHMENT_WRITE_BIT,
      VK_PIPELINE_STAGE_TOP_OF_PIPE_BIT, VK_PIPELINE_STAGE_COLOR_ATTACHMENT_OUTPUT_BIT⟩),
   ((.attachmentOptimalKhr, .shaderReadOnlyOptimal),
     ⟨VK_ACCESS_COLOR_ATTACHMENT_WRITE_BIT, VK_ACCESS_SHADER_READ_BIT,
      VK_PIPELINE_STAGE_COLOR_ATTACHMENT_OUTPUT_BIT, VK_PIPELINE_STAGE_FRAGMENT_SHADER_BIT⟩),
   ((.undefined, .shaderReadOnlyOptimal),
     ⟨0, VK_ACCESS_SHADER_READ_BIT,
      VK_PIPELINE_STAGE_TOP_OF_PIPE_BIT, VK_PIPELINE_STAGE_FRAGMENT_SHADER_BIT⟩),
   ((.colorAttachmentOptimal, .shaderReadOnlyOptimal),
     ⟨0, VK_ACCESS_SHADER_READ_BIT,
      VK_PIPELINE_STAGE_TOP_OF_PIPE_BIT, VK_PIPELINE_STAGE_FRAGMENT_SHADER_BIT⟩),
   ((.presentSrcKhr, .transferSrcOptimal),
     ⟨VK_ACCESS_COLOR_ATTACHMENT_WRITE_BIT, VK_ACCESS_TRANSFER_READ_BIT,
      VK_PIPELINE_STAGE_COLOR_ATTACHMENT_OUTPUT_BIT, VK_PIPELINE_STAGE_TRANSFER_BIT⟩),
   ((.transferSrcOptimal, .presentSrcKhr),
     ⟨VK_ACCESS_TRANSFER_READ_BIT, VK_ACCESS_COLOR_ATTACHMENT_WRITE_BIT,
      VK_PIPELINE_STAGE_TRANSFER_BIT, VK_PIPELINE_STAGE_COLOR_ATTACHMENT_OUTPUT_BIT⟩),
   ((.transferDstOptimal, .transferSrcOptimal),
     ⟨VK_ACCESS_TRANSFER_WRITE_BIT, VK_ACCESS_TRANSFER_READ_BIT,
      VK_PIPELINE_STAGE_TRANSFER_BIT, VK_PIPELINE_STAGE_TRANSFER_BIT⟩)]

/-- The 6 cases of transitionImageLayoutWithoutCommandBuffer, in source
order. -/
def transitionTableNoCmdBuf : List ((VkImageLayout × VkImageLayout) × BarrierMasks) :=
  transitionTable.take 6

/-- Lookup of a layout pair in a case table. -/
def tableLookup (table : List ((VkImageLayout × VkImageLayout) × BarrierMasks))
    (oldLayout newLayout : VkImageLayout) : Option BarrierMasks :=
  match table with
  | [] => none
  | (p, masks) :: rest =>
      if p = (oldLayout, newLayout) then some masks
      else tableLookup rest oldLayout newLayout

/-- Native calls made by transitionImageLayoutWithInfo. -/
inductive TransOp where
  | beginSingleTimeCommands
  | cmdPipelineBarrier (masks : BarrierMasks) (oldLayout newLayout : VkImageLayout)
      (image : Nat)
  | endSingleTimeCommands
  deriving DecidableEq

/-- The 6-case mask selection of transitionImageLayoutWithInfo
(ResourceUtils.cpp lines 448-502), none for the throwing default. -/
def withInfoMasks (oldLayout newLayout : VkImageLayout) : Option BarrierMasks :=
  if oldLayout = .undefined ∧ newLayout = .transferDstOptimal then
    some ⟨0, VK_ACCESS_TRANSFER_WRITE_BIT,
          VK_PIPELINE_STAGE_TOP_OF_PIPE_BIT, VK_PIPELINE_STAGE_TRANSFER_BIT⟩
  else if oldLayout = .transferDstOptimal ∧ newLayout = .shaderReadOnlyOptimal then
    some ⟨VK_ACCESS_TRANSFER_WRITE_BIT, VK_ACCESS_SHADER_READ_BIT,
          VK_PIPELINE_STAGE_TRANSFER_BIT, VK_PIPELINE_STAGE_FRAGMENT_SHADER_BIT⟩
  else if oldLayout = .undefined ∧ newLayout = .general then
    some ⟨0, VK_ACCESS_SHADER_READ_BIT ||| VK_ACCESS_SHADER_WRITE_BIT,
          VK_PIPELINE_STAGE_TOP_OF_PIPE_BIT, VK_PIPELINE_STAGE_COMPUTE_SHADER_BIT⟩
  else if oldLayout = .general ∧ newLayout = .shaderReadOnlyOptimal then
    some ⟨VK_ACCESS_SHADER_WRITE_BIT, VK_ACCESS_SHADER_READ_BIT,
          VK_PIPELINE_STAGE_COMPUTE_SHADER_BIT, VK_PIPELINE_STAGE_FRAGMENT_SHADER_BIT⟩
  else if oldLayout = .shaderReadOnlyOptimal ∧ newLayout = .general then
    some ⟨VK_ACCESS_SHADER_READ_BIT,
          VK_ACCESS_SHADER_READ_BIT ||| VK_ACCESS_SHADER_WRITE_BIT,
          VK_PIPELINE_STAGE_FRAGMENT_SHADER_BIT, VK_PIPELINE_STAGE_COMPUTE_SHADER_BIT⟩
  else if oldLayout = .undefined ∧ newLayout = .colorAttachmentOptimal then
    some ⟨0, VK_ACCESS_COLOR_ATTACHMENT_WRITE_BIT,
          VK_PIPELINE_STAGE_TOP_OF_PIPE_BIT, VK_PIPELINE_STAGE_COLOR_ATTACHMENT_OUTPUT_BIT⟩
  else
    none

/-- transitionImageLayoutWithInfo (ResourceUtils.cpp lines 415-518),
the body of the function: it receives its ImageInfo parameter by value.
Returns the trace of native calls, and on success the final state of the
local parameter copy, whose layout field is set to newLayout as the last
statement; the early return on equal layouts performs no call at all.
The throwing default fires after beginSingleTimeCommands. -/
def transitionImageLayoutWithInfo (imageInfo : ImageInfo)
    (newLayout : VkImageLayout) : List TransOp × Except String ImageInfo :=
  if imageInfo.layout = newLayout then ([], .ok imageInfo)
  else
    match withInfoMasks imageInfo.layout newLayout with
    | none =>
        ([TransOp.beginSingleTimeCommands],
         .error ("unsupported layout transition!Old layout: " ++
                 toString imageInfo.layout.toNat ++ " New layout: " ++
                 toString newLayout.toNat))
    | some masks =>
        ([TransOp.beginSingleTimeCommands,
          TransOp.cmdPipelineBarrier masks imageInfo.layout newLayout imageInfo.image,
          TransOp.endSingleTimeCommands],
         .ok { imageInfo with layout := newLayout })

/-- A call of transitionImageLayoutWithInfo at a call site: the
ImageInfo argument is passed by value, so the function body operates on
a copy and the record the caller retains after the call is its own,
untouched copy; the mutated local copy is discarded with the returning
stack frame (the function returns void). The second component is the
record the caller holds after the call. -/
def callTransitionByValue (callerRecord : ImageInfo)
    (newLayout : VkImageLayout) :
    (List TransOp × Except String Unit) × ImageInfo :=
  let r := transitionImageLayoutWithInfo callerRecord newLayout
  ((r.1, r.2.map fun _ => ()), callerRecord)

/-! ## Queue-family discovery (VulkanDevice.cpp lines 237-280) -/

/-- One element of the array vkGetPhysicalDeviceQueueFamilyProperties
fills. -/
structure QueueFamilyProps where
  queueFlags : Nat
  deriving DecidableEq

/-- The QueueFamilyIndices result struct of VulkanDevice.hpp: the three
index fields carry no initializer in the source, so they are arbitrary
until assigned. -/
structure QueueFamilyIndices where
  graphicsFamily : Nat
  computeFamily : Nat
  transferFamily : Nat
  hasGraphics : Bool := false
  hasCompute : Bool := false
  hasTransfer : Bool := false
  deriving DecidableEq

/-- isComplete (VulkanDevice.hpp). -/
def QueueFamilyIndices.isComplete (q : QueueFamilyIndices) : Bool :=
  q.hasGraphics && q.hasCompute && q.hasTransfer

/-- The graphics-bit test and assignment of one loop iteration. -/
def stepGraphics (i : Nat) (f : QueueFamilyProps) (ind : QueueFamilyIndices) :
    QueueFamilyIndices :=
  if f.queueFlags &&& VK_QUEUE_GRAPHICS_BIT ≠ 0 ∧ ind.hasGraphics = false then
    { ind with graphicsFamily := i, hasGraphics := true }
  else ind

/-- The compute-bit test and assignment of one loop iteration. -/
def stepCompute (i : Nat) (f : QueueFamilyProps) (ind : QueueFamilyIndices) :
    QueueFamilyIndices :=
  if f.queueFlags &&& VK_QUEUE_COMPUTE_BIT ≠ 0 ∧ ind.hasCompute = false then
    { ind with computeFamily := i, hasCompute := true }
  else ind

/-- The transfer-bit test and assignment of one loop iteration. -/
def stepTransfer (i : Nat) (f : QueueFamilyProps) (ind : QueueFamilyIndices) :
    QueueFamilyIndices :=
  if f.queueFlags &&& VK_QUEUE_TRANSFER_BIT ≠ 0 ∧ ind.hasTransfer = false then
    { ind with transferFamily := i, hasTransfer := true }
  else ind

/-- The scanning loop of findQueueFamilies, with its early break once
all three roles are assigned. -/
def findLoop : List QueueFamilyProps → Nat → QueueFamilyIndices → QueueFamilyIndices
  | [], _, ind => ind
  | f :: rest, i, ind =>
      let ind := stepGraphics i f ind
      let ind := stepCompute i f ind
      let ind := stepTransfer i f ind
      if ind.isComplete then ind else findLoop rest (i + 1) ind

/-- findQueueFamilies (VulkanDevice.cpp lines 237-280): first-match scan
over the reported families, then the fallback assigning the graphics
family to the compute and transfer roles when they were not found. The
init argument carries the indeterminate initial values of the
uninitialized index fields; its has-flags are the false of the
in-class initializers. -/
def findQueueFamilies (families : List QueueFamilyProps)
    (g0 c0 t0 : Nat) : QueueFamilyIndices :=
  let ind := findLoop families 0 ⟨g0, c0, t0, false, false, false⟩
  let ind :=
    if ind.hasCompute = false then
      { ind with computeFamily := ind.graphicsFamily, hasCompute := ind.hasGraphics }
    else ind
  let ind :=
    if ind.hasTransfer = false then
      { ind with transferFamily := ind.graphicsFamily, hasTransfer := ind.hasGraphics }
    else ind
  ind

/-- Index of the first family whose flags contain a bit, if any. -/
def firstIdx (bit : Nat) : List QueueFamilyProps → Option Nat
  | [] => none
  | f :: rest =>
      if f.queueFlags &&& bit ≠ 0 then some 0
      else (firstIdx bit rest).map (· + 1)

/-! ## Concrete inputs for witnesses and counterexamples -/

/-- A builder configured with size 3 and a nonzero usage flag. -/
def bbEx : BufferBuilder := { size := 3, usage := 1 }

/-- A builder with no fields set: size 0 triggers validation. -/
def bbZero : BufferBuilder := {}

/-- A tracked image record at the general layout. -/
def imgEx : ImageInfo :=
  { image := 11, imageView := 12, allocation := 13, width := 4, height := 4,
    layout := VkImageLayout.general }

/-- A tracked image record at a layout no transition-table case covers
as a target of itself. -/
def imgPresent : ImageInfo :=
  { image := 21, imageView := 22, allocation := 23, width := 8, height := 8,
    layout := VkImageLayout.presentSrcKhr }

/-- Maps holding one descriptor set layout and nothing else. -/
def mapsDsl : ResourceMaps := { descriptorSetLayouts := [("layout", 31)] }

/-- Maps holding one framebuffer and nothing else. -/
def mapsOne : ResourceMaps := { framebuffers := [("fb", 41)] }

/-- Empty resource maps. -/
def maps0 : ResourceMaps := {}

/-- Trace produced by buildAndInitialize at the concrete input of its
witness. -/
def trEx : List BufOp :=
  [BufOp.vmaCreateBuffer 3 1 VmaMemoryUsage.cpuToGpu 4 VkSharingMode.exclusive,
   BufOp.memcpyToMapped [5, 6]]

deriving instance DecidableEq for Except

/-! ## Helper lemmas about the name-keyed maps -/

theorem mapLookup_mapInsert_self {α : Type} (m : RMap α) (k : String) (v : α) :
    mapLookup (mapInsert m k v) k = some v := by
  induction m with
  | nil => simp [mapInsert, mapLookup]
  | cons p rest ih =>
      obtain ⟨k', v'⟩ := p
      by_cases h : k' = k
      · simp [mapInsert, h, mapLookup]
      · simp [mapInsert, h, mapLookup, ih]

theorem mapLookup_mapErase_self {α : Type} (m : RMap α) (k : String) :
    mapLookup (mapErase m k) k = none := by
  induction m with
  | nil => simp [mapErase, mapLookup]
  | cons p rest ih =>
      obtain ⟨k', v'⟩ := p
      by_cases h : k' = k
      · simp [mapErase, h, ih]
      · simp [mapErase, h, mapLookup, ih]

theorem countKey_eq_zero_of_not_mem {α : Type} {m : RMap α} {k : String}
    (h : k ∉ m.map Prod.fst) : countKey m k = 0 := by
  induction m with
  | nil => rfl
  | cons p rest ih =>
      obtain ⟨k', v'⟩ := p
      simp only [List.map_cons, List.mem_cons] at h
      push_neg at h
      have h2 : ¬(k' = k) := fun hh => h.1 hh.symm
      simp [countKey, h2, ih h.2]

theorem countKey_mapInsert_self {α : Type} (m : RMap α) (k : String) (v : α)
    (hm : NodupKeys m) : countKey (mapInsert m k v) k = 1 := by
  induction m with
  | nil => simp [mapInsert, countKey]
  | cons p rest ih =>
      obtain ⟨k', v'⟩ := p
      unfold NodupKeys at hm
      simp only [List.map_cons, List.nodup_cons] at hm
      by_cases h : k' = k
      · subst h
        simp [mapInsert, countKey, countKey_eq_zero_of_not_mem hm.1]
      · simp [mapInsert, h, countKey, ih hm.2]

theorem mem_keys_mapInsert {α : Type} {m : RMap α} {k : String} {v : α}
    {a : String} (ha : a ∈ (mapInsert m k v).map Prod.fst) :
    a = k ∨ a ∈ m.map Prod.fst := by
  induction m with
  | nil => simpa [mapInsert] using ha
  | cons q qs ihq =>
      obtain ⟨kq, vq⟩ := q
      by_cases hq : kq = k
      · subst hq
        simpa [mapInsert] using ha
      · simp only [mapInsert, if_neg hq, List.map_cons, List.mem_cons] at ha ⊢
        rcases ha with ha | ha
        · exact Or.inr (Or.inl ha)
        · rcases ihq ha with hb | hb
          · exact Or.inl hb
          · exact Or.inr (Or.inr hb)

theorem nodupKeys_mapInsert {α : Type} (m : RMap α) (k : String) (v : α)
    (hm : NodupKeys m) : NodupKeys (mapInsert m k v) := by
  induction m with
  | nil => simp [mapInsert, NodupKeys]
  | cons p rest ih =>
      obtain ⟨k', v'⟩ := p
      unfold NodupKeys at hm ⊢
      simp only [List.map_cons, List.nodup_cons] at hm
      by_cases h : k' = k
      · subst h
        simpa [mapInsert] using hm
      · simp only [mapInsert, if_neg h, List.map_cons, List.nodup_cons]
        refine ⟨?_, ih hm.2⟩
        intro hk
        rcases mem_keys_mapInsert hk with hb | hb
        · exact h hb
        · exact hm.1 hb

theorem double_insert_spec {α : Type} (m : RMap α) (k : String) (v1 v2 : α)
    (hm : NodupKeys m) :
    countKey (mapInsert (mapInsert m k v1) k v2) k = 1 ∧
    mapLookup (mapInsert (mapInsert m k v1) k v2) k = some v2 :=
  ⟨countKey_mapInsert_self _ k v2 (nodupKeys_mapInsert m k v1 hm),
   mapLookup_mapInsert_self _ k v2⟩

/-! ## Claim theorems -/

/-- C10: calling any registerResource overload with an empty name returns
without throwing, without modifying any resource map and without setting a
debug name, and calling clearResource with an empty name returns false
without destroying anything and without modifying any map, for every
resource type and payload. -/
theorem emptyName_register_clear_noop :
    ∀ (m : ResourceMaps) (h a s u v w hh p sec : Nat) (l : VkImageLayout)
      (t : VkObjectType),
      registerResource m "" h t = (m, [], .ok ()) ∧
      registerResourceBuffer m "" h a s u t = (m, [], .ok ()) ∧
      registerResourceImage m "" h v a w hh l t = (m, [], .ok ()) ∧
      registerResourcePair m "" p sec t = (m, [], .ok ()) ∧
      clearResource m "" t = (false, m, []) := by
  intro m h a s u v w hh p sec l t
  refine ⟨?_, ?_, ?_, ?_, ?_⟩ <;>
    simp [registerResource, registerResourceBuffer, registerResourceImage,
          registerResourcePair, clearResource]

/-- C9: calling transitionImageLayoutWithInfo with a newLayout equal to the
tracked layout of the record is a complete no-op: it returns immediately
with an empty call trace (no command buffer allocated, nothing submitted)
and without throwing, for every layout, including those in no
transition-table case. -/
theorem transitionWithInfo_same_layout_noop :
    ∀ (info : ImageInfo) (newLayout : VkImageLayout),
      info.layout = newLayout →
      transitionImageLayoutWithInfo info newLayout = ([], .ok info) := by
  intro info nl h
  simp [transitionImageLayoutWithInfo, h]

/-- Witness for C9 at a record whose tracked layout, PRESENT_SRC_KHR,
appears in no case of the transition table of the function. -/
theorem transitionWithInfo_same_layout_noop_witness :
    transitionImageLayoutWithInfo imgPresent VkImageLayout.presentSrcKhr =
      ([], .ok imgPresent) :=
  transitionWithInfo_same_layout_noop imgPresent VkImageLayout.presentSrcKhr rfl

/-- C5: for every (oldLayout, newLayout) pair, transitionImageLayout and
transitionImageLayoutWithoutCommandBuffer throw exactly when the pair is
absent from their respective explicit case tables, and for every pair
present they produce the access-mask and stage-mask combination of that
table case. -/
theorem transition_case_tables_exact :
    ∀ (oldLayout newLayout : VkImageLayout),
      transitionImageLayout oldLayout newLayout =
        (match tableLookup transitionTable oldLayout newLayout with
         | some masks => .ok masks
         | none => .error "unsupported layout transition!") ∧
      transitionImageLayoutWithoutCommandBuffer oldLayout newLayout =
        (match tableLookup transitionTableNoCmdBuf oldLayout newLayout with
         | some masks => .ok masks
         | none => .error "unsupported layout transition!") := by
  decide

/-- C7: build throws a descriptive runtime error and performs no native
creation call (empty call trace) when size is 0, when usage is 0, or when
the sharing mode is concurrent with no queue family indices; with all
required fields set, validateParameters raises no exception. -/
theorem build_validates_required_fields :
    ∀ (b : BufferBuilder) (name : String),
      (b.size = 0 →
        BufferBuilder.build b name =
          ([], .error "Buffer size must be greater than 0")) ∧
      (b.size ≠ 0 → b.usage = 0 →
        BufferBuilder.build b name =
          ([], .error "Buffer usage flags must be specified")) ∧
      (b.size ≠ 0 → b.usage ≠ 0 → b.sharingMode = VkSharingMode.concurrent →
        b.queueFamilyIndices = [] →
        BufferBuilder.build b name =
          ([], .error "Queue family indices must be specified for concurrent sharing mode")) ∧
      (b.size ≠ 0 → b.usage ≠ 0 →
        (b.sharingMode = VkSharingMode.concurrent → b.queueFamilyIndices ≠ []) →
        BufferBuilder.validateParameters b = .ok ()) := by
  intro b name
  refine ⟨?_, ?_, ?_, ?_⟩
  · intro h0
    simp [BufferBuilder.build, BufferBuilder.validateParameters, h0]
  · intro h0 h1
    simp [BufferBuilder.build, BufferBuilder.validateParameters, h0, h1]
  · intro h0 h1 h2 h3
    simp [BufferBuilder.build, BufferBuilder.validateParameters, h0, h1, h2, h3]
  · intro h0 h1 h2
    have h3 : ¬(b.sharingMode = VkSharingMode.concurrent ∧
        b.queueFamilyIndices = []) := fun hc => h2 hc.1 hc.2
    simp [BufferBuilder.validateParameters, h0, h1, h3]

/-- Witness for C7: the default-initialized builder fails validation on its
zero size with an empty trace, and a builder with size and usage set
validates cleanly. -/
theorem build_validates_required_fields_witness :
    BufferBuilder.build bbZero "x" =
      ([], .error "Buffer size must be greater than 0") ∧
    BufferBuilder.validateParameters bbEx = .ok () :=
  ⟨(build_validates_required_fields bbZero "x").1 rfl,
   (build_validates_required_fields bbEx "x").2.2.2 (by decide) (by decide)
     (by decide)⟩

/-- C2: the ImageInfo record is passed by value into
transitionImageLayoutWithInfo, so the record the caller retains after the
call — including its layout field — is unchanged for every record and
every target layout, while the function body does set the layout of its
own local copy to the target layout whenever it returns successfully: the
update lands only on the discarded copy. -/
theorem byValue_caller_layout_unchanged :
    ∀ (r : ImageInfo) (newLayout : VkImageLayout),
      (callTransitionByValue r newLayout).2 = r ∧
      ((callTransitionByValue r newLayout).2).layout = r.layout ∧
      (∀ info, (transitionImageLayoutWithInfo r newLayout).2 = .ok info →
        info.layout = newLayout) := by
  intro r nl
  refine ⟨rfl, rfl, ?_⟩
  intro info h
  unfold transitionImageLayoutWithInfo at h
  by_cases he : r.layout = nl
  · simp [he] at h
    rw [← h, ← he]
  · simp only [if_neg he] at h
    cases hm : withInfoMasks r.layout nl with
    | none => rw [hm] at h; simp at h
    | some masks =>
        rw [hm] at h
        simp at h
        rw [← h]

/-- Witness for C2: transitioning a record tracked at GENERAL to
SHADER_READ_ONLY_OPTIMAL leaves the caller's record at GENERAL although
the local copy ends at the target layout. -/
theorem byValue_caller_layout_unchanged_witness :
    (callTransitionByValue imgEx VkImageLayout.shaderReadOnlyOptimal).2 = imgEx ∧
    ({ imgEx with layout := VkImageLayout.shaderReadOnlyOptimal } : ImageInfo).layout =
      VkImageLayout.shaderReadOnlyOptimal :=
  ⟨(byValue_caller_layout_unchanged imgEx VkImageLayout.shaderReadOnlyOptimal).1,
   (byValue_caller_layout_unchanged imgEx VkImageLayout.shaderReadOnlyOptimal).2.2
     { imgEx with layout := VkImageLayout.shaderReadOnlyOptimal } rfl⟩

/-- Trace of a successful build: the single vmaCreateBuffer call followed
by the registration when a name is given. -/
theorem build_ok_trace (b : BufferBuilder) (name : String) (ops : List BufOp)
    (h : BufferBuilder.build b name = (ops, .ok ())) :
    ops = [BufOp.vmaCreateBuffer b.size b.usage b.memoryUsage b.memoryFlags
             b.sharingMode] ++
          (if name = "" then [] else [BufOp.registerBuffer name]) := by
  unfold BufferBuilder.build at h
  cases hv : BufferBuilder.validateParameters b with
  | error e => rw [hv] at h; simp at h
  | ok u =>
      cases u
      rw [hv] at h
      simp only [Prod.mk.injEq] at h
      exact h.1.symm

/-- C1 as stated is false on the code: at a concrete non-null data pointer
and non-zero dataSize, buildAndInitialize succeeds while its call trace
contains no staging-buffer creation, no recorded copy command, no
staging-buffer destruction and no synchronous wait. -/
theorem buildAndInitialize_stages_upload_cex :
    (BufferBuilder.buildAndInitialize bbEx (some [1, 2, 3]) 3 "buf").2 =
      .ok [1, 2, 3] ∧
    ((BufferBuilder.buildAndInitialize bbEx (some [1, 2, 3]) 3 "buf").1.filter
      BufOp.isStagedUploadOp) = [] := by
  constructor <;> rfl

/-- C1 amended: for every non-null data pointer and non-zero dataSize,
buildAndInitialize forces a CPU-to-GPU persistently-mapped allocation and
uploads by a direct host memcpy into the mapped allocation; no staging
buffer is created or destroyed, no copy command is recorded and nothing
is waited on, and on success the mapped buffer memory equals the caller's
data. -/
theorem buildAndInitialize_direct_mapped_upload :
    ∀ (b : BufferBuilder) (d : List Nat) (name : String)
      (tr : List BufOp) (content : List Nat),
      d ≠ [] →
      BufferBuilder.buildAndInitialize b (some d) d.length name =
        (tr, .ok content) →
      content = d ∧
      tr.filter BufOp.isStagedUploadOp = [] ∧
      BufOp.memcpyToMapped d ∈ tr ∧
      BufOp.vmaCreateBuffer b.size b.usage VmaMemoryUsage.cpuToGpu
        (b.memoryFlags ||| VMA_ALLOCATION_CREATE_MAPPED_BIT) b.sharingMode ∈ tr := by
  intro b d name tr content hd h
  have hlen : ¬(d.length = 0) := by simpa using hd
  simp only [BufferBuilder.buildAndInitialize, if_neg hlen] at h
  cases hbv : BufferBuilder.build
      { b with memoryUsage := VmaMemoryUsage.cpuToGpu,
               memoryFlags := b.memoryFlags ||| VMA_ALLOCATION_CREATE_MAPPED_BIT }
      name with
  | mk ops res =>
      rw [hbv] at h
      cases res with
      | error e => simp at h
      | ok u =>
          cases u
          simp only [Prod.mk.injEq, Except.ok.injEq, List.take_length] at h
          obtain ⟨htr, hc⟩ := h
          have hops := build_ok_trace _ name ops hbv
          subst htr
          subst hops
          refine ⟨hc.symm, ?_, ?_, ?_⟩
          · by_cases hnm : name = "" <;>
              simp [hnm, BufOp.isStagedUploadOp, List.filter_append]
          · simp
          · simp

/-- Witness for the amended C1 at a concrete builder and data list. -/
theorem buildAndInitialize_direct_mapped_upload_witness :
    ([5, 6] : List Nat) = [5, 6] ∧
    trEx.filter BufOp.isStagedUploadOp = [] ∧
    BufOp.memcpyToMapped [5, 6] ∈ trEx ∧
    BufOp.vmaCreateBuffer bbEx.size bbEx.usage VmaMemoryUsage.cpuToGpu
      (bbEx.memoryFlags ||| VMA_ALLOCATION_CREATE_MAPPED_BIT)
      bbEx.sharingMode ∈ trEx :=
  buildAndInitialize_direct_mapped_upload bbEx [5, 6] "" trEx [5, 6]
    (by decide) rfl

/-- Helper: an Option whose isSome is false is none. -/
theorem eq_none_of_isSome_false {α : Type} {o : Option α}
    (h : o.isSome = false) : o = none := by
  cases o with
  | none => rfl
  | some v => simp at h

/-- C3 as stated quantifies over every name, and fails at the empty name:
registerResource with an empty name registers nothing, so the first
clearResource call with that name returns false, not true. -/
theorem register_then_clear_emptyName_cex :
    (clearResource
       (registerResourceBuffer maps0 "" 1 2 3 4 VkObjectType.buffer).1
       "" VkObjectType.buffer).1 = false := by
  rfl

/-- C3 amended: for every non-empty name and supported resource type,
after registering a resource under that name the first
clearResource(name, type) call returns true and removes the record, a
second clearResource with the same name and type returns false, and
clearResource on a name absent from the map of its type returns false. -/
theorem register_then_clear_true_once :
    ∀ (m : ResourceMaps) (name : String) (r : RegRequest),
      name ≠ "" → r.supported = true →
      ((clearResource (applyRegister m name r).1 name r.objType).1 = true ∧
       containsFor (clearResource (applyRegister m name r).1 name r.objType).2.1
         r.objType name = false ∧
       (clearResource
          (clearResource (applyRegister m name r).1 name r.objType).2.1
          name r.objType).1 = false) ∧
      (∀ (m2 : ResourceMaps) (t : VkObjectType),
        containsFor m2 t name = false → (clearResource m2 name t).1 = false) := by
  intro m name r hn hs
  constructor
  · cases r with
    | handle h t =>
        cases t <;> simp [RegRequest.supported] at hs <;>
          simp [applyRegister, registerResource, hn, RegRequest.objType,
                clearResource, containsFor, mapLookup_mapInsert_self,
                mapLookup_mapErase_self]
    | buffer h a s u =>
        simp [applyRegister, registerResourceBuffer, hn, RegRequest.objType,
              clearResource, containsFor, mapLookup_mapInsert_self,
              mapLookup_mapErase_self]
    | image h v a w hh l =>
        simp [applyRegister, registerResourceImage, hn, RegRequest.objType,
              clearResource, containsFor, mapLookup_mapInsert_self,
              mapLookup_mapErase_self]
    | pair p s t =>
        cases t <;> simp [RegRequest.supported] at hs <;>
          simp [applyRegister, registerResourcePair, hn, RegRequest.objType,
                clearResource, containsFor, mapLookup_mapInsert_self,
                mapLookup_mapErase_self]
  · intro m2 t hc
    cases t <;>
      first
      | (simp only [containsFor] at hc
         simp [clearResource, hn, eq_none_of_isSome_false hc])
      | simp [clearResource, hn]

/-- Witness for the amended C3 at a concrete buffer registration. -/
theorem register_then_clear_true_once_witness :
    (clearResource
       (applyRegister maps0 "buf" (RegRequest.buffer 1 2 3 4)).1 "buf"
       (RegRequest.buffer 1 2 3 4).objType).1 = true ∧
    (clearResource maps0 "buf" VkObjectType.image).1 = false :=
  ⟨(register_then_clear_true_once maps0 "buf" (RegRequest.buffer 1 2 3 4)
      (by decide) (by decide)).1.1,
   (register_then_clear_true_once maps0 "buf" (RegRequest.buffer 1 2 3 4)
      (by decide) (by decide)).2 maps0 VkObjectType.image (by decide)⟩

/-- C6: re-registering under a non-empty name already present in a
resource map replaces only the bookkeeping record — the map then holds
exactly one record for that name, the newer one — and neither
registration call destroys or frees any native object. -/
theorem reregister_replaces_bookkeeping_only :
    ∀ (m : ResourceMaps) (name : String) (r1 r2 : RegRequest),
      name ≠ "" → r1.supported = true → r2.supported = true →
      r1.objType = r2.objType → NodupKeysFor m r2.objType →
      countFor (applyRegister (applyRegister m name r1).1 name r2).1
        r2.objType name = 1 ∧
      recordedAs (applyRegister (applyRegister m name r1).1 name r2).1
        name r2 = true ∧
      (∀ op ∈ (applyRegister m name r1).2.1, op.isDestroy = false) ∧
      (∀ op ∈ (applyRegister (applyRegister m name r1).1 name r2).2.1,
        op.isDestroy = false) := by
  intro m name r1 r2 hn h1 h2 ht hnd
  cases r1 with
  | handle hv1 t1 =>
      cases r2 with
      | handle hv2 t2 =>
          simp only [RegRequest.objType] at ht hnd
          subst ht
          cases t1 <;> simp [RegRequest.supported] at h1 h2 <;>
            (try simp only [NodupKeysFor] at hnd) <;>
            (refine ⟨?_, ?_, ?_, ?_⟩
             · simp only [applyRegister, registerResource, if_neg hn, countFor]
               exact countKey_mapInsert_self _ _ _
                 (nodupKeys_mapInsert _ _ _ hnd)
             · simp [applyRegister, registerResource, hn, recordedAs,
                     mapLookup_mapInsert_self]
             · intro op hop
               simp [applyRegister, registerResource, hn] at hop
               simp [hop, RMOp.isDestroy]
             · intro op hop
               simp [applyRegister, registerResource, hn] at hop
               simp [hop, RMOp.isDestroy])
      | buffer hb a s u =>
          simp only [RegRequest.objType] at ht
          subst ht
          simp [RegRequest.supported] at h1
      | image hb v a w hh l =>
          simp only [RegRequest.objType] at ht
          subst ht
          simp [RegRequest.supported] at h1
      | pair p s t2 =>
          simp only [RegRequest.objType] at ht
          subst ht
          cases t1 <;> simp [RegRequest.supported] at h1 h2
  | buffer hb1 a1 s1 u1 =>
      cases r2 with
      | handle hv2 t2 =>
          simp only [RegRequest.objType] at ht
          rw [← ht] at h2
          simp [RegRequest.supported] at h2
      | buffer hb2 a2 s2 u2 =>
          simp only [RegRequest.objType, NodupKeysFor] at hnd
          refine ⟨?_, ?_, ?_, ?_⟩
          · simp only [applyRegister, registerResourceBuffer, if_neg hn,
                       RegRequest.objType, countFor]
            simp only [reduceIte]
            exact countKey_mapInsert_self _ _ _ (nodupKeys_mapInsert _ _ _ hnd)
          · simp [applyRegister, registerResourceBuffer, hn, recordedAs,
                  mapLookup_mapInsert_self]
          · intro op hop
            simp [applyRegister, registerResourceBuffer, hn] at hop
            simp [hop, RMOp.isDestroy]
          · intro op hop
            simp [applyRegister, registerResourceBuffer, hn] at hop
            simp [hop, RMOp.isDestroy]
      | image hb2 v a w hh l =>
          simp [RegRequest.objType] at ht
      | pair p s t2 =>
          simp only [RegRequest.objType] at ht
          rw [← ht] at h2
          simp [RegRequest.supported] at h2
  | image hi1 v1 a1 w1 hh1 l1 =>
      cases r2 with
      | handle hv2 t2 =>
          simp only [RegRequest.objType] at ht
          rw [← ht] at h2
          simp [RegRequest.supported] at h2
      | buffer hb2 a2 s2 u2 =>
          simp [RegRequest.objType] at ht
      | image hi2 v2 a2 w2 hh2 l2 =>
          simp only [RegRequest.objType, NodupKeysFor] at hnd
          refine ⟨?_, ?_, ?_, ?_⟩
          · simp only [applyRegister, registerResourceImage, if_neg hn,
                       RegRequest.objType, countFor]
            exact countKey_mapInsert_self _ _ _ (nodupKeys_mapInsert _ _ _ hnd)
          · simp [applyRegister, registerResourceImage, hn, recordedAs,
                  mapLookup_mapInsert_self]
          · intro op hop
            simp [applyRegister, registerResourceImage, hn] at hop
            simp [hop, RMOp.isDestroy]
          · intro op hop
            simp [applyRegister, registerResourceImage, hn] at hop
            simp [hop, RMOp.isDestroy]
      | pair p s t2 =>
          simp only [RegRequest.objType] at ht
          rw [← ht] at h2
          simp [RegRequest.supported] at h2
  | pair p1 s1 t1 =>
      cases r2 with
      | handle hv2 t2 =>
          simp only [RegRequest.objType] at ht
          subst ht
          cases t1 <;> simp [RegRequest.supported] at h1 h2
      | buffer hb2 a2 s2 u2 =>
          simp only [RegRequest.objType] at ht
          subst ht
          simp [RegRequest.supported] at h1
      | image hi2 v2 a2 w2 hh2 l2 =>
          simp only [RegRequest.objType] at ht
          subst ht
          simp [RegRequest.supported] at h1
      | pair p2 s2 t2 =>
          simp only [RegRequest.objType] at ht hnd
          subst ht
          cases t1 <;> simp [RegRequest.supported] at h1 h2 <;>
            (try simp only [NodupKeysFor] at hnd) <;>
            (refine ⟨?_, ?_, ?_, ?_⟩
             · simp only [applyRegister, registerResourcePair, if_neg hn,
                          countFor]
               exact countKey_mapInsert_self _ _ _
                 (nodupKeys_mapInsert _ _ _ hnd)
             · simp [applyRegister, registerResourcePair, hn, recordedAs,
                     mapLookup_mapInsert_self]
             · intro op hop
               simp [applyRegister, registerResourcePair, hn] at hop
               simp [hop, RMOp.isDestroy]
             · intro op hop
               simp [applyRegister, registerResourcePair, hn] at hop
               simp [hop, RMOp.isDestroy])

/-- Witness for C6 at two pipeline registrations under the same name. -/
theorem reregister_replaces_bookkeeping_only_witness :
    countFor
      (applyRegister
        (applyRegister maps0 "p" (RegRequest.pair 1 2 VkObjectType.pipeline)).1
        "p" (RegRequest.pair 3 4 VkObjectType.pipeline)).1
      VkObjectType.pipeline "p" = 1 ∧
    recordedAs
      (applyRegister
        (applyRegister maps0 "p" (RegRequest.pair 1 2 VkObjectType.pipeline)).1
        "p" (RegRequest.pair 3 4 VkObjectType.pipeline)).1
      "p" (RegRequest.pair 3 4 VkObjectType.pipeline) = true :=
  ⟨(reregister_replaces_bookkeeping_only maps0 "p"
      (RegRequest.pair 1 2 VkObjectType.pipeline)
      (RegRequest.pair 3 4 VkObjectType.pipeline)
      (by decide) (by decide) (by decide) rfl
      (List.Pairwise.nil)).1,
   (reregister_replaces_bookkeeping_only maps0 "p"
      (RegRequest.pair 1 2 VkObjectType.pipeline)
      (RegRequest.pair 3 4 VkObjectType.pipeline)
      (by decide) (by decide) (by decide) rfl
      (List.Pairwise.nil)).2.1⟩

/-- Lists whose elements all carry one rank are sorted by rank. -/
theorem pairwise_rank_const {l : List RMOp} {r : Nat}
    (h : ∀ x ∈ l, RMOp.kindRank x = r) :
    l.Pairwise (fun a b => RMOp.kindRank a ≤ RMOp.kindRank b) := by
  induction l with
  | nil => exact List.Pairwise.nil
  | cons a t ih =>
      refine List.Pairwise.cons ?_ (ih fun x hx => h x (List.mem_cons_of_mem _ hx))
      intro b hb
      rw [h a (List.mem_cons_self _ _), h b (List.mem_cons_of_mem _ hb)]

/-- Prepending a constant-rank segment to a rank-sorted, rank-bounded
list keeps the result rank-sorted and bounded below by the segment's
rank. -/
theorem pairwise_rank_chain {s t : List RMOp} {r : Nat}
    (hs : ∀ x ∈ s, RMOp.kindRank x = r)
    (ht : t.Pairwise (fun a b => RMOp.kindRank a ≤ RMOp.kindRank b))
    (htb : ∀ x ∈ t, r ≤ RMOp.kindRank x) :
    ((s ++ t).Pairwise fun a b => RMOp.kindRank a ≤ RMOp.kindRank b) ∧
    (∀ x ∈ s ++ t, r ≤ RMOp.kindRank x) := by
  constructor
  · rw [List.pairwise_append]
    refine ⟨pairwise_rank_const hs, ht, ?_⟩
    intro a ha b hb
    rw [hs a ha]
    exact htb b hb
  · intro x hx
    rcases List.mem_append.1 hx with hx | hx
    · rw [hs x hx]
    · exact htb x hx

/-- C4 as stated is false on the code: with one tracked descriptor set
layout and nothing else, cleanup performs no destruction at all and
leaves the descriptor-set-layout map non-empty. -/
theorem cleanup_all_maps_cex :
    (cleanup mapsDsl).1 = [] ∧ (cleanup mapsDsl).2.descriptorSetLayouts ≠ [] := by
  constructor
  · rfl
  · simp [cleanup, mapsDsl]

/-- C4 amended: cleanup destroys the resources of the nine kinds it
visits in the fixed order framebuffers, render passes, pipelines (with
their layouts), shader modules, samplers, images (views then images),
buffers, command buffers (freed only when their pool handle is
non-null), then descriptor sets followed by their descriptor pools, and
empties those nine maps; the descriptor-set-layout map is not visited:
its entries are neither destroyed nor removed. -/
theorem cleanup_fixed_order :
    ∀ (m : ResourceMaps),
      ((cleanup m).1.Pairwise fun a b => RMOp.kindRank a ≤ RMOp.kindRank b) ∧
      (cleanup m).2.framebuffers = [] ∧
      (cleanup m).2.renderPasses = [] ∧
      (cleanup m).2.pipelines = [] ∧
      (cleanup m).2.shaderModules = [] ∧
      (cleanup m).2.samplers = [] ∧
      (cleanup m).2.images = [] ∧
      (cleanup m).2.buffers = [] ∧
      (cleanup m).2.commandBuffers = [] ∧
      (cleanup m).2.descriptorSetInfos = [] ∧
      (cleanup m).2.descriptorSetLayouts = m.descriptorSetLayouts ∧
      (∀ p ∈ m.framebuffers, RMOp.destroyFramebuffer p.2 ∈ (cleanup m).1) ∧
      (∀ p ∈ m.renderPasses, RMOp.destroyRenderPass p.2 ∈ (cleanup m).1) ∧
      (∀ p ∈ m.pipelines, RMOp.destroyPipeline p.2.pipeline ∈ (cleanup m).1 ∧
        RMOp.destroyPipelineLayout p.2.pipelineLayout ∈ (cleanup m).1) ∧
      (∀ p ∈ m.shaderModules, RMOp.destroyShaderModule p.2 ∈ (cleanup m).1) ∧
      (∀ p ∈ m.samplers, RMOp.destroySampler p.2 ∈ (cleanup m).1) ∧
      (∀ p ∈ m.images, RMOp.destroyImageView p.2.imageView ∈ (cleanup m).1 ∧
        RMOp.vmaDestroyImage p.2.image p.2.allocation ∈ (cleanup m).1) ∧
      (∀ p ∈ m.buffers,
        RMOp.vmaDestroyBuffer p.2.buffer p.2.allocation ∈ (cleanup m).1) ∧
      (∀ p ∈ m.commandBuffers, p.2.commandPool ≠ 0 →
        RMOp.freeCommandBuffer p.2.commandPool p.2.commandBuffer ∈ (cleanup m).1) ∧
      (∀ p ∈ m.descriptorSetInfos,
        RMOp.freeDescriptorSet p.2.descriptorPool p.2.descriptorSet ∈ (cleanup m).1 ∧
        RMOp.destroyDescriptorPool p.2.descriptorPool ∈ (cleanup m).1) := by
  intro m
  have hs1 : ∀ x ∈ m.framebuffers.map (fun p => RMOp.destroyFramebuffer p.2),
      RMOp.kindRank x = 0 := by
    intro x hx
    rcases List.mem_map.1 hx with ⟨p, _, rfl⟩
    rfl
  have hs2 : ∀ x ∈ m.renderPasses.map (fun p => RMOp.destroyRenderPass p.2),
      RMOp.kindRank x = 1 := by
    intro x hx
    rcases List.mem_map.1 hx with ⟨p, _, rfl⟩
    rfl
  have hs3 : ∀ x ∈ ((m.pipelines.map fun p =>
      [RMOp.destroyPipeline p.2.pipeline,
       RMOp.destroyPipelineLayout p.2.pipelineLayout]).flatten),
      RMOp.kindRank x = 2 := by
    intro x hx
    rcases List.mem_flatten.1 hx with ⟨l, hl, hxl⟩
    rcases List.mem_map.1 hl with ⟨p, _, rfl⟩
    simp only [List.mem_cons, List.not_mem_nil, or_false] at hxl
    rcases hxl with rfl | rfl <;> rfl
  have hs4 : ∀ x ∈ m.shaderModules.map (fun p => RMOp.destroyShaderModule p.2),
      RMOp.kindRank x = 3 := by
    intro x hx
    rcases List.mem_map.1 hx with ⟨p, _, rfl⟩
    rfl
  have hs5 : ∀ x ∈ m.samplers.map (fun p => RMOp.destroySampler p.2),
      RMOp.kindRank x = 4 := by
    intro x hx
    rcases List.mem_map.1 hx with ⟨p, _, rfl⟩
    rfl
  have hs6 : ∀ x ∈ ((m.images.map fun p =>
      [RMOp.destroyImageView p.2.imageView,
       RMOp.vmaDestroyImage p.2.image p.2.allocation]).flatten),
      RMOp.kindRank x = 5 := by
    intro x hx
    rcases List.mem_flatten.1 hx with ⟨l, hl, hxl⟩
    rcases List.mem_map.1 hl with ⟨p, _, rfl⟩
    simp only [List.mem_cons, List.not_mem_nil, or_false] at hxl
    rcases hxl with rfl | rfl <;> rfl
  have hs7 : ∀ x ∈ m.buffers.map
      (fun p => RMOp.vmaDestroyBuffer p.2.buffer p.2.allocation),
      RMOp.kindRank x = 6 := by
    intro x hx
    rcases List.mem_map.1 hx with ⟨p, _, rfl⟩
    rfl
  have hs8 : ∀ x ∈ ((m.commandBuffers.map fun p =>
      if p.2.commandPool ≠ 0 then
        [RMOp.freeCommandBuffer p.2.commandPool p.2.commandBuffer]
      else []).flatten),
      RMOp.kindRank x = 7 := by
    intro x hx
    rcases List.mem_flatten.1 hx with ⟨l, hl, hxl⟩
    rcases List.mem_map.1 hl with ⟨p, _, rfl⟩
    by_cases hp : p.2.commandPool ≠ 0
    · rw [if_pos hp] at hxl
      simp only [List.mem_cons, List.not_mem_nil, or_false] at hxl
      subst hxl
      rfl
    · rw [if_neg hp] at hxl
      exact absurd hxl (List.not_mem_nil x)
  have hs9 : ∀ x ∈ m.descriptorSetInfos.map
      (fun p => RMOp.freeDescriptorSet p.2.descriptorPool p.2.descriptorSet),
      RMOp.kindRank x = 8 := by
    intro x hx
    rcases List.mem_map.1 hx with ⟨p, _, rfl⟩
    rfl
  have hs10 : ∀ x ∈ m.descriptorSetInfos.map
      (fun p => RMOp.destroyDescriptorPool p.2.descriptorPool),
      RMOp.kindRank x = 9 := by
    intro x hx
    rcases List.mem_map.1 hx with ⟨p, _, rfl⟩
    rfl
  have c10 : (_ ∧ _) := ⟨pairwise_rank_const hs10,
    fun x hx => le_of_eq (hs10 x hx).symm⟩
  have c9 := pairwise_rank_chain hs9 c10.1
    (fun x hx => le_trans (by norm_num) (c10.2 x hx))
  have c8 := pairwise_rank_chain hs8 c9.1
    (fun x hx => le_trans (by norm_num) (c9.2 x hx))
  have c7 := pairwise_rank_chain hs7 c8.1
    (fun x hx => le_trans (by norm_num) (c8.2 x hx))
  have c6 := pairwise_rank_chain hs6 c7.1
    (fun x hx => le_trans (by norm_num) (c7.2 x hx))
  have c5 := pairwise_rank_chain hs5 c6.1
    (fun x hx => le_trans (by norm_num) (c6.2 x hx))
  have c4 := pairwise_rank_chain hs4 c5.1
    (fun x hx => le_trans (by norm_num) (c5.2 x hx))
  have c3 := pairwise_rank_chain hs3 c4.1
    (fun x hx => le_trans (by norm_num) (c4.2 x hx))
  have c2 := pairwise_rank_chain hs2 c3.1
    (fun x hx => le_trans (by norm_num) (c3.2 x hx))
  have c1 := pairwise_rank_chain hs1 c2.1
    (fun x hx => le_trans (by norm_num) (c2.2 x hx))
  refine ⟨c1.1, rfl, rfl, rfl, rfl, rfl, rfl, rfl, rfl, rfl, rfl,
    ?_, ?_, ?_, ?_, ?_, ?_, ?_, ?_, ?_⟩
  · intro p hp
    exact List.mem_append_left _ (List.mem_map_of_mem _ hp)
  · intro p hp
    exact List.mem_append_right _ (List.mem_append_left _
      (List.mem_map_of_mem _ hp))
  · intro p hp
    constructor
    · exact List.mem_append_right _ (List.mem_append_right _
        (List.mem_append_left _ (List.mem_flatten.2
          ⟨_, List.mem_map_of_mem _ hp, by simp⟩)))
    · exact List.mem_append_right _ (List.mem_append_right _
        (List.mem_append_left _ (List.mem_flatten.2
          ⟨_, List.mem_map_of_mem _ hp, by simp⟩)))
  · intro p hp
    exact List.mem_append_right _ (List.mem_append_right _
      (List.mem_append_right _ (List.mem_append_left _
        (List.mem_map_of_mem _ hp))))
  · intro p hp
    exact List.mem_append_right _ (List.mem_append_right _
      (List.mem_append_right _ (List.mem_append_right _
        (List.mem_append_left _ (List.mem_map_of_mem _ hp)))))
  · intro p hp
    constructor
    · exact List.mem_append_right _ (List.mem_append_right _
        (List.mem_append_right _ (List.mem_append_right _
          (List.mem_append_right _ (List.mem_append_left _
            (List.mem_flatten.2 ⟨_, List.mem_map_of_mem _ hp, by simp⟩))))))
    · exact List.mem_append_right _ (List.mem_append_right _
        (List.mem_append_right _ (List.mem_append_right _
          (List.mem_append_right _ (List.mem_append_left _
            (List.mem_flatten.2 ⟨_, List.mem_map_of_mem _ hp, by simp⟩))))))
  · intro p hp
    exact List.mem_append_right _ (List.mem_append_right _
      (List.mem_append_right _ (List.mem_append_right _
        (List.mem_append_right _ (List.mem_append_right _
          (List.mem_append_left _ (List.mem_map_of_mem _ hp)))))))
  · intro p hp hpool
    refine List.mem_append_right _ (List.mem_append_right _
      (List.mem_append_right _ (List.mem_append_right _
        (List.mem_append_right _ (List.mem_append_right _
          (List.mem_append_right _ (List.mem_append_left _
            (List.mem_flatten.2 ⟨_, List.mem_map_of_mem _ hp, ?_⟩))))))))
    rw [if_pos hpool]
    simp
  · intro p hp
    constructor
    · exact List.mem_append_right _ (List.mem_append_right _
        (List.mem_append_right _ (List.mem_append_right _
          (List.mem_append_right _ (List.mem_append_right _
            (List.mem_append_right _ (List.mem_append_right _
              (List.mem_append_left _ (List.mem_map_of_mem _ hp)))))))))
    · exact List.mem_append_right _ (List.mem_append_right _
        (List.mem_append_right _ (List.mem_append_right _
          (List.mem_append_right _ (List.mem_append_right _
            (List.mem_append_right _ (List.mem_append_right _
              (List.mem_append_right _ (List.mem_map_of_mem _ hp)))))))))

/-- Witness for the amended C4: cleanup on maps holding one framebuffer
destroys it and empties the framebuffer map. -/
theorem cleanup_fixed_order_witness :
    (cleanup mapsOne).2.framebuffers = [] ∧
    RMOp.destroyFramebuffer 41 ∈ (cleanup mapsOne).1 :=
  ⟨(cleanup_fixed_order mapsOne).2.1,
   (cleanup_fixed_order mapsOne).2.2.2.2.2.2.2.2.2.2.2.1 ("fb", 41)
     (by decide)⟩

/-! ## Lemmas about the queue-family scan steps -/

theorem stepGraphics_computeFamily (i : Nat) (f : QueueFamilyProps)
    (ind : QueueFamilyIndices) :
    (stepGraphics i f ind).computeFamily = ind.computeFamily := by
  unfold stepGraphics; split <;> rfl

theorem stepGraphics_hasCompute (i : Nat) (f : QueueFamilyProps)
    (ind : QueueFamilyIndices) :
    (stepGraphics i f ind).hasCompute = ind.hasCompute := by
  unfold stepGraphics; split <;> rfl

theorem stepGraphics_transferFamily (i : Nat) (f : QueueFamilyProps)
    (ind : QueueFamilyIndices) :
    (stepGraphics i f ind).transferFamily = ind.transferFamily := by
  unfold stepGraphics; split <;> rfl

theorem stepGraphics_hasTransfer (i : Nat) (f : QueueFamilyProps)
    (ind : QueueFamilyIndices) :
    (stepGraphics i f ind).hasTransfer = ind.hasTransfer := by
  unfold stepGraphics; split <;> rfl

theorem stepCompute_graphicsFamily (i : Nat) (f : QueueFamilyProps)
    (ind : QueueFamilyIndices) :
    (stepCompute i f ind).graphicsFamily = ind.graphicsFamily := by
  unfold stepCompute; split <;> rfl

theorem stepCompute_hasGraphics (i : Nat) (f : QueueFamilyProps)
    (ind : QueueFamilyIndices) :
    (stepCompute i f ind).hasGraphics = ind.hasGraphics := by
  unfold stepCompute; split <;> rfl

theorem stepCompute_transferFamily (i : Nat) (f : QueueFamilyProps)
    (ind : QueueFamilyIndices) :
    (stepCompute i f ind).transferFamily = ind.transferFamily := by
  unfold stepCompute; split <;> rfl

theorem stepCompute_hasTransfer (i : Nat) (f : QueueFamilyProps)
    (ind : QueueFamilyIndices) :
    (stepCompute i f ind).hasTransfer = ind.hasTransfer := by
  unfold stepCompute; split <;> rfl

theorem stepTransfer_graphicsFamily (i : Nat) (f : QueueFamilyProps)
    (ind : QueueFamilyIndices) :
    (stepTransfer i f ind).graphicsFamily = ind.graphicsFamily := by
  unfold stepTransfer; split <;> rfl

theorem stepTransfer_hasGraphics (i : Nat) (f : QueueFamilyProps)
    (ind : QueueFamilyIndices) :
    (stepTransfer i f ind).hasGraphics = ind.hasGraphics := by
  unfold stepTransfer; split <;> rfl

theorem stepTransfer_computeFamily (i : Nat) (f : QueueFamilyProps)
    (ind : QueueFamilyIndices) :
    (stepTransfer i f ind).computeFamily = ind.computeFamily := by
  unfold stepTransfer; split <;> rfl

theorem stepTransfer_hasCompute (i : Nat) (f : QueueFamilyProps)
    (ind : QueueFamilyIndices) :
    (stepTransfer i f ind).hasCompute = ind.hasCompute := by
  unfold stepTransfer; split <;> rfl

theorem stepGraphics_of_has (i : Nat) (f : QueueFamilyProps)
    (ind : QueueFamilyIndices) (h : ind.hasGraphics = true) :
    stepGraphics i f ind = ind := by
  unfold stepGraphics
  split
  next hc => rw [h] at hc; simp at hc
  next => rfl

theorem stepGraphics_pos (i : Nat) (f : QueueFamilyProps)
    (ind : QueueFamilyIndices)
    (hbit : f.queueFlags &&& VK_QUEUE_GRAPHICS_BIT ≠ 0)
    (h : ind.hasGraphics = false) :
    stepGraphics i f ind = { ind with graphicsFamily := i, hasGraphics := true } := by
  unfold stepGraphics
  rw [if_pos ⟨hbit, h⟩]

theorem stepGraphics_nobit (i : Nat) (f : QueueFamilyProps)
    (ind : QueueFamilyIndices)
    (hbit : f.queueFlags &&& VK_QUEUE_GRAPHICS_BIT = 0) :
    stepGraphics i f ind = ind := by
  unfold stepGraphics
  rw [if_neg]
  intro hc
  exact hc.1 hbit

theorem stepCompute_of_has (i : Nat) (f : QueueFamilyProps)
    (ind : QueueFamilyIndices) (h : ind.hasCompute = true) :
    stepCompute i f ind = ind := by
  unfold stepCompute
  split
  next hc => rw [h] at hc; simp at hc
  next => rfl

theorem stepCompute_pos (i : Nat) (f : QueueFamilyProps)
    (ind : QueueFamilyIndices)
    (hbit : f.queueFlags &&& VK_QUEUE_COMPUTE_BIT ≠ 0)
    (h : ind.hasCompute = false) :
    stepCompute i f ind = { ind with computeFamily := i, hasCompute := true } := by
  unfold stepCompute
  rw [if_pos ⟨hbit, h⟩]

theorem stepCompute_nobit (i : Nat) (f : QueueFamilyProps)
    (ind : QueueFamilyIndices)
    (hbit : f.queueFlags &&& VK_QUEUE_COMPUTE_BIT = 0) :
    stepCompute i f ind = ind := by
  unfold stepCompute
  rw [if_neg]
  intro hc
  exact hc.1 hbit

theorem stepTransfer_of_has (i : Nat) (f : QueueFamilyProps)
    (ind : QueueFamilyIndices) (h : ind.hasTransfer = true) :
    stepTransfer i f ind = ind := by
  unfold stepTransfer
  split
  next hc => rw [h] at hc; simp at hc
  next => rfl

theorem stepTransfer_pos (i : Nat) (f : QueueFamilyProps)
    (ind : QueueFamilyIndices)
    (hbit : f.queueFlags &&& VK_QUEUE_TRANSFER_BIT ≠ 0)
    (h : ind.hasTransfer = false) :
    stepTransfer i f ind = { ind with transferFamily := i, hasTransfer := true } := by
  unfold stepTransfer
  rw [if_pos ⟨hbit, h⟩]

theorem stepTransfer_nobit (i : Nat) (f : QueueFamilyProps)
    (ind : QueueFamilyIndices)
    (hbit : f.queueFlags &&& VK_QUEUE_TRANSFER_BIT = 0) :
    stepTransfer i f ind = ind := by
  unfold stepTransfer
  rw [if_neg]
  intro hc
  exact hc.1 hbit

theorem firstIdx_some_exists {bit : Nat} :
    ∀ {fs : List QueueFamilyProps} {j : Nat},
      firstIdx bit fs = some j → ∃ f ∈ fs, f.queueFlags &&& bit ≠ 0 := by
  intro fs
  induction fs with
  | nil => intro j h; simp [firstIdx] at h
  | cons f rest ih =>
      intro j h
      by_cases hbit : f.queueFlags &&& bit ≠ 0
      · exact ⟨f, List.mem_cons_self _ _, hbit⟩
      · simp only [firstIdx, if_neg hbit] at h
        rcases Option.map_eq_some'.1 h with ⟨j', hj', _⟩
        rcases ih hj' with ⟨g, hg, hgbit⟩
        exact ⟨g, List.mem_cons_of_mem _ hg, hgbit⟩

theorem firstIdx_none_forall {bit : Nat} :
    ∀ {fs : List QueueFamilyProps},
      firstIdx bit fs = none → ∀ f ∈ fs, f.queueFlags &&& bit = 0 := by
  intro fs
  induction fs with
  | nil => intro _ f hf; simp at hf
  | cons f rest ih =>
      intro h g hg
      by_cases hbit : f.queueFlags &&& bit ≠ 0
      · simp [firstIdx, hbit] at h
      · have hbit0 : f.queueFlags &&& bit = 0 := by push_neg at hbit; exact hbit
        rcases List.mem_cons.1 hg with rfl | hg2
        · exact hbit0
        · apply ih ?_ g hg2
          simp only [firstIdx, if_neg hbit] at h
          exact Option.map_eq_none'.1 h

/-- The scan loop and the graphics role: an already-assigned role is
never overwritten; an unassigned role is set exactly when some family
carries the bit, at the first such index. -/
theorem findLoop_graphics :
    ∀ (fs : List QueueFamilyProps) (i : Nat) (ind : QueueFamilyIndices),
      (ind.hasGraphics = true →
        (findLoop fs i ind).graphicsFamily = ind.graphicsFamily ∧
        (findLoop fs i ind).hasGraphics = true) ∧
      (ind.hasGraphics = false →
        ((findLoop fs i ind).hasGraphics = true ↔
          ∃ f ∈ fs, f.queueFlags &&& VK_QUEUE_GRAPHICS_BIT ≠ 0) ∧
        (∀ j, firstIdx VK_QUEUE_GRAPHICS_BIT fs = some j →
          (findLoop fs i ind).graphicsFamily = i + j)) := by
  intro fs
  induction fs with
  | nil =>
      intro i ind
      refine ⟨fun h => ⟨rfl, h⟩, fun h => ⟨?_, ?_⟩⟩
      · simp [findLoop, h]
      · intro j hj
        simp [firstIdx] at hj
  | cons f rest ih =>
      intro i ind
      constructor
      · intro h
        have hg3 : (stepTransfer i f (stepCompute i f (stepGraphics i f ind))).hasGraphics = true := by
          rw [stepTransfer_hasGraphics, stepCompute_hasGraphics,
              stepGraphics_of_has i f ind h]
          exact h
        have hgf3 : (stepTransfer i f (stepCompute i f (stepGraphics i f ind))).graphicsFamily = ind.graphicsFamily := by
          rw [stepTransfer_graphicsFamily, stepCompute_graphicsFamily,
              stepGraphics_of_has i f ind h]
        simp only [findLoop]
        by_cases hcomp :
            (stepTransfer i f (stepCompute i f (stepGraphics i f ind))).isComplete = true
        · rw [if_pos hcomp]
          exact ⟨hgf3, hg3⟩
        · rw [if_neg hcomp]
          have hr := (ih (i + 1) _).1 hg3
          exact ⟨hr.1.trans hgf3, hr.2⟩
      · intro h
        by_cases hbit : f.queueFlags &&& VK_QUEUE_GRAPHICS_BIT ≠ 0
        · have hg3 : (stepTransfer i f (stepCompute i f (stepGraphics i f ind))).hasGraphics = true := by
            rw [stepTransfer_hasGraphics, stepCompute_hasGraphics,
                stepGraphics_pos i f ind hbit h]
          have hgf3 : (stepTransfer i f (stepCompute i f (stepGraphics i f ind))).graphicsFamily = i := by
            rw [stepTransfer_graphicsFamily, stepCompute_graphicsFamily,
                stepGraphics_pos i f ind hbit h]
          have hres : (findLoop (f :: rest) i ind).graphicsFamily = i ∧
              (findLoop (f :: rest) i ind).hasGraphics = true := by
            simp only [findLoop]
            by_cases hcomp :
                (stepTransfer i f (stepCompute i f (stepGraphics i f ind))).isComplete = true
            · rw [if_pos hcomp]
              exact ⟨hgf3, hg3⟩
            · rw [if_neg hcomp]
              have hr := (ih (i + 1) _).1 hg3
              exact ⟨hr.1.trans hgf3, hr.2⟩
          refine ⟨?_, ?_⟩
          · exact ⟨fun _ => ⟨f, List.mem_cons_self _ _, hbit⟩, fun _ => hres.2⟩
          · intro j hj
            simp only [firstIdx, if_pos hbit, Option.some.injEq] at hj
            rw [hres.1]
            omega
        · have hbit0 : f.queueFlags &&& VK_QUEUE_GRAPHICS_BIT = 0 := by
            push_neg at hbit; exact hbit
          have hg3 : (stepTransfer i f (stepCompute i f (stepGraphics i f ind))).hasGraphics = false := by
            rw [stepTransfer_hasGraphics, stepCompute_hasGraphics,
                stepGraphics_nobit i f ind hbit0]
            exact h
          have hgf3 : (stepTransfer i f (stepCompute i f (stepGraphics i f ind))).graphicsFamily = ind.graphicsFamily := by
            rw [stepTransfer_graphicsFamily, stepCompute_graphicsFamily,
                stepGraphics_nobit i f ind hbit0]
          have hcomp : ¬((stepTransfer i f (stepCompute i f (stepGraphics i f ind))).isComplete = true) := by
            simp [QueueFamilyIndices.isComplete, hg3]
          have hloop : findLoop (f :: rest) i ind =
              findLoop rest (i + 1)
                (stepTransfer i f (stepCompute i f (stepGraphics i f ind))) := by
            simp only [findLoop]
            rw [if_neg hcomp]
          have IH := (ih (i + 1) _).2 hg3
          refine ⟨?_, ?_⟩
          · rw [hloop, IH.1]
            constructor
            · rintro ⟨g, hg, hgbit⟩
              exact ⟨g, List.mem_cons_of_mem _ hg, hgbit⟩
            · rintro ⟨g, hg, hgbit⟩
              rcases List.mem_cons.1 hg with rfl | hg2
              · exact absurd hbit0 hgbit
              · exact ⟨g, hg2, hgbit⟩
          · intro j hj
            simp only [firstIdx, if_neg hbit] at hj
            rcases Option.map_eq_some'.1 hj with ⟨j', hj', rfl⟩
            rw [hloop, IH.2 j' hj']
            omega

/-- The scan loop and the compute role, analogous to the graphics
lemma. -/
theorem findLoop_compute :
    ∀ (fs : List QueueFamilyProps) (i : Nat) (ind : QueueFamilyIndices),
      (ind.hasCompute = true →
        (findLoop fs i ind).computeFamily = ind.computeFamily ∧
        (findLoop fs i ind).hasCompute = true) ∧
      (ind.hasCompute = false →
        ((findLoop fs i ind).hasCompute = true ↔
          ∃ f ∈ fs, f.queueFlags &&& VK_QUEUE_COMPUTE_BIT ≠ 0) ∧
        (∀ j, firstIdx VK_QUEUE_COMPUTE_BIT fs = some j →
          (findLoop fs i ind).computeFamily = i + j)) := by
  intro fs
  induction fs with
  | nil =>
      intro i ind
      refine ⟨fun h => ⟨rfl, h⟩, fun h => ⟨?_, ?_⟩⟩
      · simp [findLoop, h]
      · intro j hj
        simp [firstIdx] at hj
  | cons f rest ih =>
      intro i ind
      constructor
      · intro h
        have hX : (stepGraphics i f ind).hasCompute = true := by
          rw [stepGraphics_hasCompute]; exact h
        have hc3 : (stepTransfer i f (stepCompute i f (stepGraphics i f ind))).hasCompute = true := by
          rw [stepTransfer_hasCompute, stepCompute_of_has i f _ hX]
          exact hX
        have hcf3 : (stepTransfer i f (stepCompute i f (stepGraphics i f ind))).computeFamily = ind.computeFamily := by
          rw [stepTransfer_computeFamily, stepCompute_of_has i f _ hX,
              stepGraphics_computeFamily]
        simp only [findLoop]
        by_cases hcomp :
            (stepTransfer i f (stepCompute i f (stepGraphics i f ind))).isComplete = true
        · rw [if_pos hcomp]
          exact ⟨hcf3, hc3⟩
        · rw [if_neg hcomp]
          have hr := (ih (i + 1) _).1 hc3
          exact ⟨hr.1.trans hcf3, hr.2⟩
      · intro h
        have hX0 : (stepGraphics i f ind).hasCompute = false := by
          rw [stepGraphics_hasCompute]; exact h
        by_cases hbit : f.queueFlags &&& VK_QUEUE_COMPUTE_BIT ≠ 0
        · have hc3 : (stepTransfer i f (stepCompute i f (stepGraphics i f ind))).hasCompute = true := by
            rw [stepTransfer_hasCompute, stepCompute_pos i f _ hbit hX0]
          have hcf3 : (stepTransfer i f (stepCompute i f (stepGraphics i f ind))).computeFamily = i := by
            rw [stepTransfer_computeFamily, stepCompute_pos i f _ hbit hX0]
          have hres : (findLoop (f :: rest) i ind).computeFamily = i ∧
              (findLoop (f :: rest) i ind).hasCompute = true := by
            simp only [findLoop]
            by_cases hcomp :
                (stepTransfer i f (stepCompute i f (stepGraphics i f ind))).isComplete = true
            · rw [if_pos hcomp]
              exact ⟨hcf3, hc3⟩
            · rw [if_neg hcomp]
              have hr := (ih (i + 1) _).1 hc3
              exact ⟨hr.1.trans hcf3, hr.2⟩
          refine ⟨?_, ?_⟩
          · exact ⟨fun _ => ⟨f, List.mem_cons_self _ _, hbit⟩, fun _ => hres.2⟩
          · intro j hj
            simp only [firstIdx, if_pos hbit, Option.some.injEq] at hj
            rw [hres.1]
            omega
        · have hbit0 : f.queueFlags &&& VK_QUEUE_COMPUTE_BIT = 0 := by
            push_neg at hbit; exact hbit
          have hc3 : (stepTransfer i f (stepCompute i f (stepGraphics i f ind))).hasCompute = false := by
            rw [stepTransfer_hasCompute, stepCompute_nobit i f _ hbit0]
            exact hX0
          have hcf3 : (stepTransfer i f (stepCompute i f (stepGraphics i f ind))).computeFamily = ind.computeFamily := by
            rw [stepTransfer_computeFamily, stepCompute_nobit i f _ hbit0,
                stepGraphics_computeFamily]
          have hcomp : ¬((stepTransfer i f (stepCompute i f (stepGraphics i f ind))).isComplete = true) := by
            simp [QueueFamilyIndices.isComplete, hc3]
          have hloop : findLoop (f :: rest) i ind =
              findLoop rest (i + 1)
                (stepTransfer i f (stepCompute i f (stepGraphics i f ind))) := by
            simp only [findLoop]
            rw [if_neg hcomp]
          have IH := (ih (i + 1) _).2 hc3
          refine ⟨?_, ?_⟩
          · rw [hloop, IH.1]
            constructor
            · rintro ⟨g, hg, hgbit⟩
              exact ⟨g, List.mem_cons_of_mem _ hg, hgbit⟩
            · rintro ⟨g, hg, hgbit⟩
              rcases List.mem_cons.1 hg with rfl | hg2
              · exact absurd hbit0 hgbit
              · exact ⟨g, hg2, hgbit⟩
          · intro j hj
            simp only [firstIdx, if_neg hbit] at hj
            rcases Option.map_eq_some'.1 hj with ⟨j', hj', rfl⟩
            rw [hloop, IH.2 j' hj']
            omega

/-- The scan loop and the transfer role, analogous to the graphics
lemma. -/
theorem findLoop_transfer :
    ∀ (fs : List QueueFamilyProps) (i : Nat) (ind : QueueFamilyIndices),
      (ind.hasTransfer = true →
        (findLoop fs i ind).transferFamily = ind.transferFamily ∧
        (findLoop fs i ind).hasTransfer = true) ∧
      (ind.hasTransfer = false →
        ((findLoop fs i ind).hasTransfer = true ↔
          ∃ f ∈ fs, f.queueFlags &&& VK_QUEUE_TRANSFER_BIT ≠ 0) ∧
        (∀ j, firstIdx VK_QUEUE_TRANSFER_BIT fs = some j →
          (findLoop fs i ind).transferFamily = i + j)) := by
  intro fs
  induction fs with
  | nil =>
      intro i ind
      refine ⟨fun h => ⟨rfl, h⟩, fun h => ⟨?_, ?_⟩⟩
      · simp [findLoop, h]
      · intro j hj
        simp [firstIdx] at hj
  | cons f rest ih =>
      intro i ind
      constructor
      · intro h
        have hY : (stepCompute i f (stepGraphics i f ind)).hasTransfer = true := by
          rw [stepCompute_hasTransfer, stepGraphics_hasTransfer]; exact h
        have ht3 : (stepTransfer i f (stepCompute i f (stepGraphics i f ind))).hasTransfer = true := by
          rw [stepTransfer_of_has i f _ hY]
          exact hY
        have htf3 : (stepTransfer i f (stepCompute i f (stepGraphics i f ind))).transferFamily = ind.transferFamily := by
          rw [stepTransfer_of_has i f _ hY, stepCompute_transferFamily,
              stepGraphics_transferFamily]
        simp only [findLoop]
        by_cases hcomp :
            (stepTransfer i f (stepCompute i f (stepGraphics i f ind))).isComplete = true
        · rw [if_pos hcomp]
          exact ⟨htf3, ht3⟩
        · rw [if_neg hcomp]
          have hr := (ih (i + 1) _).1 ht3
          exact ⟨hr.1.trans htf3, hr.2⟩
      · intro h
        have hY0 : (stepCompute i f (stepGraphics i f ind)).hasTransfer = false := by
          rw [stepCompute_hasTransfer, stepGraphics_hasTransfer]; exact h
        by_cases hbit : f.queueFlags &&& VK_QUEUE_TRANSFER_BIT ≠ 0
        · have ht3 : (stepTransfer i f (stepCompute i f (stepGraphics i f ind))).hasTransfer = true := by
            rw [stepTransfer_pos i f _ hbit hY0]
          have htf3 : (stepTransfer i f (stepCompute i f (stepGraphics i f ind))).transferFamily = i := by
            rw [stepTransfer_pos i f _ hbit hY0]
          have hres : (findLoop (f :: rest) i ind).transferFamily = i ∧
              (findLoop (f :: rest) i ind).hasTransfer = true := by
            simp only [findLoop]
            by_cases hcomp :
                (stepTransfer i f (stepCompute i f (stepGraphics i f ind))).isComplete = true
            · rw [if_pos hcomp]
              exact ⟨htf3, ht3⟩
            · rw [if_neg hcomp]
              have hr := (ih (i + 1) _).1 ht3
              exact ⟨hr.1.trans htf3, hr.2⟩
          refine ⟨?_, ?_⟩
          · exact ⟨fun _ => ⟨f, List.mem_cons_self _ _, hbit⟩, fun _ => hres.2⟩
          · intro j hj
            simp only [firstIdx, if_pos hbit, Option.some.injEq] at hj
            rw [hres.1]
            omega
        · have hbit0 : f.queueFlags &&& VK_QUEUE_TRANSFER_BIT = 0 := by
            push_neg at hbit; exact hbit
          have ht3 : (stepTransfer i f (stepCompute i f (stepGraphics i f ind))).hasTransfer = false := by
            rw [stepTransfer_nobit i f _ hbit0]
            exact hY0
          have htf3 : (stepTransfer i f (stepCompute i f (stepGraphics i f ind))).transferFamily = ind.transferFamily := by
            rw [stepTransfer_nobit i f _ hbit0, stepCompute_transferFamily,
                stepGraphics_transferFamily]
          have hcomp : ¬((stepTransfer i f (stepCompute i f (stepGraphics i f ind))).isComplete = true) := by
            simp [QueueFamilyIndices.isComplete, ht3]
          have hloop : findLoop (f :: rest) i ind =
              findLoop rest (i + 1)
                (stepTransfer i f (stepCompute i f (stepGraphics i f ind))) := by
            simp only [findLoop]
            rw [if_neg hcomp]
          have IH := (ih (i + 1) _).2 ht3
          refine ⟨?_, ?_⟩
          · rw [hloop, IH.1]
            constructor
            · rintro ⟨g, hg, hgbit⟩
              exact ⟨g, List.mem_cons_of_mem _ hg, hgbit⟩
            · rintro ⟨g, hg, hgbit⟩
              rcases List.mem_cons.1 hg with rfl | hg2
              · exact absurd hbit0 hgbit
              · exact ⟨g, hg2, hgbit⟩
          · intro j hj
            simp only [firstIdx, if_neg hbit] at hj
            rcases Option.map_eq_some'.1 hj with ⟨j', hj', rfl⟩
            rw [hloop, IH.2 j' hj']
            omega

/-- C8: findQueueFamilies assigns each of the graphics, compute and
transfer roles to the first reported family whose flags contain the
corresponding bit, and assigns the graphics family to the compute and/or
transfer role exactly when no family at all has the compute and/or
transfer bit, whatever indeterminate values the uninitialized index
fields start from. -/
theorem findQueueFamilies_first_match :
    ∀ (families : List QueueFamilyProps) (g0 c0 t0 : Nat),
      ((findQueueFamilies families g0 c0 t0).hasGraphics = true ↔
        ∃ f ∈ families, f.queueFlags &&& VK_QUEUE_GRAPHICS_BIT ≠ 0) ∧
      (∀ j, firstIdx VK_QUEUE_GRAPHICS_BIT families = some j →
        (findQueueFamilies families g0 c0 t0).graphicsFamily = j) ∧
      (∀ j, firstIdx VK_QUEUE_COMPUTE_BIT families = some j →
        (findQueueFamilies families g0 c0 t0).computeFamily = j) ∧
      (∀ j, firstIdx VK_QUEUE_TRANSFER_BIT families = some j →
        (findQueueFamilies families g0 c0 t0).transferFamily = j) ∧
      (firstIdx VK_QUEUE_COMPUTE_BIT families = none →
        (findQueueFamilies families g0 c0 t0).computeFamily =
          (findQueueFamilies families g0 c0 t0).graphicsFamily ∧
        (findQueueFamilies families g0 c0 t0).hasCompute =
          (findQueueFamilies families g0 c0 t0).hasGraphics) ∧
      (firstIdx VK_QUEUE_TRANSFER_BIT families = none →
        (findQueueFamilies families g0 c0 t0).transferFamily =
          (findQueueFamilies families g0 c0 t0).graphicsFamily ∧
        (findQueueFamilies families g0 c0 t0).hasTransfer =
          (findQueueFamilies families g0 c0 t0).hasGraphics) := by
  intro families g0 c0 t0
  have G := (findLoop_graphics families 0 ⟨g0, c0, t0, false, false, false⟩).2 rfl
  have C := (findLoop_compute families 0 ⟨g0, c0, t0, false, false, false⟩).2 rfl
  have T := (findLoop_transfer families 0 ⟨g0, c0, t0, false, false, false⟩).2 rfl
  cases hC : (findLoop families 0 ⟨g0, c0, t0, false, false, false⟩).hasCompute with
  | false =>
      cases hT : (findLoop families 0 ⟨g0, c0, t0, false, false, false⟩).hasTransfer with
      | false =>
          have hgf : (findQueueFamilies families g0 c0 t0).graphicsFamily =
              (findLoop families 0 ⟨g0, c0, t0, false, false, false⟩).graphicsFamily := by
            simp [findQueueFamilies, hC, hT]
          have hhg : (findQueueFamilies families g0 c0 t0).hasGraphics =
              (findLoop families 0 ⟨g0, c0, t0, false, false, false⟩).hasGraphics := by
            simp [findQueueFamilies, hC, hT]
          have hcf : (findQueueFamilies families g0 c0 t0).computeFamily =
              (findLoop families 0 ⟨g0, c0, t0, false, false, false⟩).graphicsFamily := by
            simp [findQueueFamilies, hC, hT]
          have hhc : (findQueueFamilies families g0 c0 t0).hasCompute =
              (findLoop families 0 ⟨g0, c0, t0, false, false, false⟩).hasGraphics := by
            simp [findQueueFamilies, hC, hT]
          have htf : (findQueueFamilies families g0 c0 t0).transferFamily =
              (findLoop families 0 ⟨g0, c0, t0, false, false, false⟩).graphicsFamily := by
            simp [findQueueFamilies, hC, hT]
          have hht : (findQueueFamilies families g0 c0 t0).hasTransfer =
              (findLoop families 0 ⟨g0, c0, t0, false, false, false⟩).hasGraphics := by
            simp [findQueueFamilies, hC, hT]
          refine ⟨?_, ?_, ?_, ?_, ?_, ?_⟩
          · rw [hhg]; exact G.1
          · intro j hj
            rw [hgf]
            have := G.2 j hj
            omega
          · intro j hj
            have hx := C.1.mpr (firstIdx_some_exists hj)
            rw [hC] at hx
            simp at hx
          · intro j hj
            have hx := T.1.mpr (firstIdx_some_exists hj)
            rw [hT] at hx
            simp at hx
          · intro _
            exact ⟨hcf.trans hgf.symm, hhc.trans hhg.symm⟩
          · intro _
            exact ⟨htf.trans hgf.symm, hht.trans hhg.symm⟩
      | true =>
          have hgf : (findQueueFamilies families g0 c0 t0).graphicsFamily =
              (findLoop families 0 ⟨g0, c0, t0, false, false, false⟩).graphicsFamily := by
            simp [findQueueFamilies, hC, hT]
          have hhg : (findQueueFamilies families g0 c0 t0).hasGraphics =
              (findLoop families 0 ⟨g0, c0, t0, false, false, false⟩).hasGraphics := by
            simp [findQueueFamilies, hC, hT]
          have hcf : (findQueueFamilies families g0 c0 t0).computeFamily =
              (findLoop families 0 ⟨g0, c0, t0, false, false, false⟩).graphicsFamily := by
            simp [findQueueFamilies, hC, hT]
          have hhc : (findQueueFamilies families g0 c0 t0).hasCompute =
              (findLoop families 0 ⟨g0, c0, t0, false, false, false⟩).hasGraphics := by
            simp [findQueueFamilies, hC, hT]
          have htf : (findQueueFamilies families g0 c0 t0).transferFamily =
              (findLoop families 0 ⟨g0, c0, t0, false, false, false⟩).transferFamily := by
            simp [findQueueFamilies, hC, hT]
          refine ⟨?_, ?_, ?_, ?_, ?_, ?_⟩
          · rw [hhg]; exact G.1
          · intro j hj
            rw [hgf]
            have := G.2 j hj
            omega
          · intro j hj
            have hx := C.1.mpr (firstIdx_some_exists hj)
            rw [hC] at hx
            simp at hx
          · intro j hj
            rw [htf]
            have := T.2 j hj
            omega
          · intro _
            exact ⟨hcf.trans hgf.symm, hhc.trans hhg.symm⟩
          · intro hnone
            obtain ⟨g, hgmem, hgbit⟩ := T.1.mp hT
            exact absurd (firstIdx_none_forall hnone g hgmem) hgbit
  | true =>
      cases hT : (findLoop families 0 ⟨g0, c0, t0, false, false, false⟩).hasTransfer with
      | false =>
          have hgf : (findQueueFamilies families g0 c0 t0).graphicsFamily =
              (findLoop families 0 ⟨g0, c0, t0, false, false, false⟩).graphicsFamily := by
            simp [findQueueFamilies, hC, hT]
          have hhg : (findQueueFamilies families g0 c0 t0).hasGraphics =
              (findLoop families 0 ⟨g0, c0, t0, false, false, false⟩).hasGraphics := by
            simp [findQueueFamilies, hC, hT]
          have hcf : (findQueueFamilies families g0 c0 t0).computeFamily =
              (findLoop families 0 ⟨g0, c0, t0, false, false, false⟩).computeFamily := by
            simp [findQueueFamilies, hC, hT]
          have htf : (findQueueFamilies families g0 c0 t0).transferFamily =
              (findLoop families 0 ⟨g0, c0, t0, false, false, false⟩).graphicsFamily := by
            simp [findQueueFamilies, hC, hT]
          have hht : (findQueueFamilies families g0 c0 t0).hasTransfer =
              (findLoop families 0 ⟨g0, c0, t0, false, false, false⟩).hasGraphics := by
            simp [findQueueFamilies, hC, hT]
          refine ⟨?_, ?_, ?_, ?_, ?_, ?_⟩
          · rw [hhg]; exact G.1
          · intro j hj
            rw [hgf]
            have := G.2 j hj
            omega
          · intro j hj
            rw [hcf]
            have := C.2 j hj
            omega
          · intro j hj
            have hx := T.1.mpr (firstIdx_some_exists hj)
            rw [hT] at hx
            simp at hx
          · intro hnone
            obtain ⟨g, hgmem, hgbit⟩ := C.1.mp hC
            exact absurd (firstIdx_none_forall hnone g hgmem) hgbit
          · intro _
            exact ⟨htf.trans hgf.symm, hht.trans hhg.symm⟩
      | true =>
          have hgf : (findQueueFamilies families g0 c0 t0).graphicsFamily =
              (findLoop families 0 ⟨g0, c0, t0, false, false, false⟩).graphicsFamily := by
            simp [findQueueFamilies, hC, hT]
          have hhg : (findQueueFamilies families g0 c0 t0).hasGraphics =
              (findLoop families 0 ⟨g0, c0, t0, false, false, false⟩).hasGraphics := by
            simp [findQueueFamilies, hC, hT]
          have hcf : (findQueueFamilies families g0 c0 t0).computeFamily =
              (findLoop families 0 ⟨g0, c0, t0, false, false, false⟩).computeFamily := by
            simp [findQueueFamilies, hC, hT]
          have htf : (findQueueFamilies families g0 c0 t0).transferFamily =
              (findLoop families 0 ⟨g0, c0, t0, false, false, false⟩).transferFamily := by
            simp [findQueueFamilies, hC, hT]
          refine ⟨?_, ?_, ?_, ?_, ?_, ?_⟩
          · rw [hhg]; exact G.1
          · intro j hj
            rw [hgf]
            have := G.2 j hj
            omega
          · intro j hj
            rw [hcf]
            have := C.2 j hj
            omega
          · intro j hj
            rw [htf]
            have := T.2 j hj
            omega
          · intro hnone
            obtain ⟨g, hgmem, hgbit⟩ := C.1.mp hC
            exact absurd (firstIdx_none_forall hnone g hgmem) hgbit
          · intro hnone
            obtain ⟨g, hgmem, hgbit⟩ := T.1.mp hT
            exact absurd (firstIdx_none_forall hnone g hgmem) hgbit

/-- Witness for C8: with a graphics-only family 0 and a compute+transfer
family 1, each role takes its first matching index; with only the
graphics family present, the compute role falls back to the graphics
family. -/
theorem findQueueFamilies_first_match_witness :
    (findQueueFamilies [⟨1⟩, ⟨6⟩] 7 8 9).graphicsFamily = 0 ∧
    (findQueueFamilies [⟨1⟩, ⟨6⟩] 7 8 9).computeFamily = 1 ∧
    (findQueueFamilies [⟨1⟩, ⟨6⟩] 7 8 9).transferFamily = 1 ∧
    (findQueueFamilies [⟨1⟩] 7 8 9).computeFamily =
      (findQueueFamilies [⟨1⟩] 7 8 9).graphicsFamily :=
  ⟨(findQueueFamilies_first_match [⟨1⟩, ⟨6⟩] 7 8 9).2.1 0 (by decide),
   (findQueueFamilies_first_match [⟨1⟩, ⟨6⟩] 7 8 9).2.2.1 1 (by decide),
   (findQueueFamilies_first_match [⟨1⟩, ⟨6⟩] 7 8 9).2.2.2.1 1 (by decide),
   ((findQueueFamilies_first_match [⟨1⟩] 7 8 9).2.2.2.2.1 (by decide)).1⟩

end EV

